import Mathlib

/-!
Shallow embedding of `pandapower/diagnostic.py` (the network diagnostic engine).

Tables of the pandapower network are embedded as lists of typed rows; the pandas
index of a row is its `idx` field.  Numeric columns are embedded as rationals,
boolean columns as `Bool`, bus references as `Nat`.  The injected power-flow
solver (`kwargs["run"]`) is embedded as an oracle `Solver := Nat → Net → SolveOutcome`:
a possibly stateful Python callable is modelled by indexing with the number of
calls made so far; the call counter is threaded through every function that may
invoke the solver.  A Python function that may raise is embedded with result
type `Except Exc _`; returning `Except.error e` models an exception propagating
out of the function, while exceptions the Python code catches internally are
handled inside the definition.
-/

namespace PPDiag

set_option maxRecDepth 8000

/-- The exception kinds distinguished by `diagnostic.py`: the four expected
non-convergence exceptions (`expected_exceptions` tuple), `FloatingPointError`
(treated as expected only by `implausible_impedance_values`' first catch), and
any other exception, carrying a message. -/
inductive Exc where
  | loadflowNotConverged
  | opfNotConverged
  | controllerNotConverged
  | netCalculationNotConverged
  | floatingPointError
  | otherError (msg : String)
deriving DecidableEq, Repr

/-- Membership in the `expected_exceptions` tuple. -/
def Exc.isExpected : Exc → Bool
  | .loadflowNotConverged => true
  | .opfNotConverged => true
  | .controllerNotConverged => true
  | .netCalculationNotConverged => true
  | _ => false

/-- Outcome of one call of the power-flow function: it either returns normally
(converged) or raises an exception. -/
inductive SolveOutcome where
  | ok
  | exn (e : Exc)
deriving DecidableEq, Repr

/-- Python-dict assignment `d[k] = v`: update in place if the key is present,
else append (Python dicts preserve insertion order). -/
def dictSet {α : Type} (d : List (String × α)) (k : String) (v : α) :
    List (String × α) :=
  match d with
  | [] => [(k, v)]
  | (k', v') :: rest => if k' = k then (k, v) :: rest else (k', v') :: dictSet rest k v

/-- Python-dict lookup. -/
def dictGet {α : Type} (d : List (String × α)) (k : String) : Option α :=
  match d with
  | [] => none
  | (k', v') :: rest => if k' = k then some v' else dictGet rest k

/-- Python `k in d` for dicts. -/
def dictHas {α : Type} (d : List (String × α)) (k : String) : Bool :=
  (dictGet d k).isSome

/-- Insert into a sorted list of naturals (ascending). -/
def insortNat (n : Nat) : List Nat → List Nat
  | [] => [n]
  | m :: rest => if n ≤ m then n :: m :: rest else m :: insortNat n rest

/-- Sort a list of naturals ascending.  Used to embed the deterministic
iteration order of pandas `groupby` results and of Python sets of small
non-negative integers. -/
def sortNat (l : List Nat) : List Nat := l.foldr insortNat []

/-- Sorted list of the distinct members of `l` (ascending). -/
def sortedDedupNat (l : List Nat) : List Nat := (sortNat l).dedup

/-- Row of `net.bus`. -/
structure BusRow where
  idx : Nat
  vn_kv : Rat
  in_service : Bool
deriving DecidableEq, Repr

/-- Row of `net.line`. -/
structure LineRow where
  idx : Nat
  from_bus : Nat
  to_bus : Nat
  length_km : Rat
  r_ohm_per_km : Rat
  x_ohm_per_km : Rat
  c_nf_per_km : Rat
  max_i_ka : Rat
  df : Rat
  in_service : Bool
  std_type : Option String
deriving DecidableEq, Repr

/-- Row of `net.load` and of `net.sgen` (the two tables share the columns the
diagnostic reads: bus, p_mw, q_mvar, scaling, in_service). -/
structure LoadRow where
  idx : Nat
  bus : Nat
  p_mw : Rat
  q_mvar : Rat
  scaling : Rat
  in_service : Bool
deriving DecidableEq, Repr

/-- Row of `net.gen`. -/
structure GenRow where
  idx : Nat
  bus : Nat
  p_mw : Rat
  scaling : Rat
  slack : Bool
  in_service : Bool
deriving DecidableEq, Repr

/-- Row of `net.ext_grid`. -/
structure ExtGridRow where
  idx : Nat
  bus : Nat
  vm_pu : Rat
  va_degree : Rat
  in_service : Bool
deriving DecidableEq, Repr

/-- Row of `net.switch`.  `et` is the element-type tag, one of
"b", "l", "t", "t3". -/
structure SwitchRow where
  idx : Nat
  bus : Nat
  element : Nat
  et : String
  closed : Bool
deriving DecidableEq, Repr

/-- Row of `net.trafo`. -/
structure TrafoRow where
  idx : Nat
  hv_bus : Nat
  lv_bus : Nat
  sn_mva : Rat
  vn_hv_kv : Rat
  vn_lv_kv : Rat
  vk_percent : Rat
  vkr_percent : Rat
  pfe_kw : Rat
  i0_percent : Rat
  in_service : Bool
  std_type : Option String
deriving DecidableEq, Repr

/-- Row of `net.trafo3w`. -/
structure Trafo3wRow where
  idx : Nat
  hv_bus : Nat
  mv_bus : Nat
  lv_bus : Nat
  sn_hv_mva : Rat
  sn_mv_mva : Rat
  sn_lv_mva : Rat
  vn_hv_kv : Rat
  vn_mv_kv : Rat
  vn_lv_kv : Rat
  vk_hv_percent : Rat
  vk_mv_percent : Rat
  vk_lv_percent : Rat
  vkr_hv_percent : Rat
  vkr_mv_percent : Rat
  vkr_lv_percent : Rat
  pfe_kw : Rat
  i0_percent : Rat
  in_service : Bool
  std_type : Option String
deriving DecidableEq, Repr

/-- Row of `net.impedance`. -/
structure ImpedanceRow where
  idx : Nat
  from_bus : Nat
  to_bus : Nat
  rft_pu : Rat
  xft_pu : Rat
  rtf_pu : Rat
  xtf_pu : Rat
  sn_mva : Rat
  in_service : Bool
deriving DecidableEq, Repr

/-- Row of `net.ward`. -/
structure WardRow where
  idx : Nat
  bus : Nat
  ps_mw : Rat
  qs_mvar : Rat
  pz_mw : Rat
  qz_mvar : Rat
  in_service : Bool
deriving DecidableEq, Repr

/-- Row of `net.xward`. -/
structure XwardRow where
  idx : Nat
  bus : Nat
  ps_mw : Rat
  qs_mvar : Rat
  pz_mw : Rat
  qz_mvar : Rat
  r_ohm : Rat
  x_ohm : Rat
  vm_pu : Rat
  in_service : Bool
deriving DecidableEq, Repr

/-- Row of `net.vsc` (AC/DC converter).  Note: the table has no
`from_bus`/`to_bus` columns. -/
structure VscRow where
  idx : Nat
  bus : Nat
  bus_dc : Nat
  r_ohm : Rat
  x_ohm : Rat
  r_dc_ohm : Rat
  in_service : Bool
deriving DecidableEq, Repr

/-- Row of `net.line_dc`.  Note: the table has no `from_bus`/`to_bus`
columns (its terminals are `from_bus_dc`/`to_bus_dc`). -/
structure LineDcRow where
  idx : Nat
  from_bus_dc : Nat
  to_bus_dc : Nat
  length_km : Rat
  r_ohm_per_km : Rat
  r_dc_ohm : Rat
  in_service : Bool
deriving DecidableEq, Repr

/-- `net.std_types`: the standard-type library, with its three fixed element
kinds; each maps a type name to a parameter dictionary. -/
structure StdTypes where
  line : List (String × List (String × Rat))
  trafo : List (String × List (String × Rat))
  trafo3w : List (String × List (String × Rat))
deriving DecidableEq, Repr

/-- The pandapower network: the element tables the diagnostic reads or writes. -/
structure Net where
  bus : List BusRow
  line : List LineRow
  load : List LoadRow
  sgen : List LoadRow
  gen : List GenRow
  ext_grid : List ExtGridRow
  switch : List SwitchRow
  trafo : List TrafoRow
  trafo3w : List Trafo3wRow
  impedance : List ImpedanceRow
  ward : List WardRow
  xward : List XwardRow
  vsc : List VscRow
  line_dc : List LineDcRow
  std_types : StdTypes
deriving DecidableEq, Repr

/-- The injected power-flow function (`kwargs["run"]`, defaulting to `runpp`):
an oracle indexed by the number of calls already made, so that arbitrary
stateful Python callables (including the test double that always raises) are
representable.  It observes the network and converges or raises. -/
def Solver : Type := Nat → Net → SolveOutcome

/-- Insert with a boolean "less or equal" comparator (stable insertion sort
step). -/
def insortBy {α : Type} (le : α → α → Bool) (x : α) : List α → List α
  | [] => [x]
  | y :: rest => if le x y then x :: y :: rest else y :: insortBy le x rest

/-- Stable insertion sort with a boolean comparator. -/
def sortBy {α : Type} (le : α → α → Bool) (l : List α) : List α :=
  l.foldr (insortBy le) []

/-- `no_ext_grid` (diagnostic.py:342): reports `True` when no in-service
external grid and no in-service slack generator exists. -/
def no_ext_grid (net : Net) : Option Bool :=
  if net.ext_grid.countP (·.in_service) + net.gen.countP (fun g => g.slack && g.in_service) = 0
  then some true else none

/-- `wrong_reference_system` (diagnostic.py:894): loads, gens and sgens with
negative active power. -/
def wrong_reference_system (net : Net) : Option (List (String × List Nat)) :=
  let neg_loads := (net.load.filter (fun l => l.p_mw < 0)).map (·.idx)
  let neg_gens := (net.gen.filter (fun g => g.p_mw < 0)).map (·.idx)
  let neg_sgens := (net.sgen.filter (fun s => s.p_mw < 0)).map (·.idx)
  let check_results :=
    (if neg_loads ≠ [] then [("loads", neg_loads)] else []) ++
    (if neg_gens ≠ [] then [("gens", neg_gens)] else []) ++
    (if neg_sgens ≠ [] then [("sgens", neg_sgens)] else [])
  if check_results ≠ [] then some check_results else none

/-- `multiple_voltage_controlling_elements_per_bus` (diagnostic.py:355):
buses with more than one external grid (pandas `groupby("bus")` iterates the
keys in ascending order), and buses shared between ext_grids and gens
(a Python set of small naturals, embedded in ascending order). -/
def multiple_voltage_controlling_elements_per_bus (net : Net) :
    Option (List (String × List Nat)) :=
  let buses_with_mult_ext_grids :=
    (sortedDedupNat (net.ext_grid.map (·.bus))).filter
      (fun b => net.ext_grid.countP (fun e => e.bus = b) > 1)
  let buses_with_gens_and_ext_grids :=
    (sortedDedupNat (net.ext_grid.map (·.bus))).filter
      (fun b => (net.gen.map (·.bus)).contains b)
  let check_results :=
    (if buses_with_mult_ext_grids ≠ []
      then [("buses_with_mult_ext_grids", buses_with_mult_ext_grids)] else []) ++
    (if buses_with_gens_and_ext_grids ≠ []
      then [("buses_with_gens_and_ext_grids", buses_with_gens_and_ext_grids)] else [])
  if check_results ≠ [] then some check_results else none

/-- The bus index set `set(net.bus.index)` of `missing_bus_indices`. -/
def mbiBusMem (net : Net) (v : Nat) : Bool := (net.bus.map (·.idx)).contains v

/-- The `switch` rows' contribution to `missing_bus_indices`
(diagnostic.py:497-503): the `bus` reference always checked, the `element`
reference exempt under element-type tags "l", "t", "t3". -/
def mbiSwitchCheck (net : Net) : List (Nat × String × Nat) :=
  net.switch.flatMap (fun r =>
    (if mbiBusMem net r.bus then [] else [(r.idx, "bus", r.bus)]) ++
    (if mbiBusMem net r.element || (r.et = "l" || r.et = "t" || r.et = "t3") then []
     else [(r.idx, "element", r.element)]))

/-- The `check_results` dictionary of `missing_bus_indices`, keys in the
iteration order of `element_bus_names`. -/
def mbiCheckResults (net : Net) : List (String × List (Nat × String × Nat)) :=
  let ext_grid_check := net.ext_grid.flatMap (fun r =>
    if mbiBusMem net r.bus then [] else [(r.idx, "bus", r.bus)])
  let load_check := net.load.flatMap (fun r =>
    if mbiBusMem net r.bus then [] else [(r.idx, "bus", r.bus)])
  let gen_check := net.gen.flatMap (fun r =>
    if mbiBusMem net r.bus then [] else [(r.idx, "bus", r.bus)])
  let sgen_check := net.sgen.flatMap (fun r =>
    if mbiBusMem net r.bus then [] else [(r.idx, "bus", r.bus)])
  let trafo_check := net.trafo.flatMap (fun r =>
    (if mbiBusMem net r.lv_bus then [] else [(r.idx, "lv_bus", r.lv_bus)]) ++
    (if mbiBusMem net r.hv_bus then [] else [(r.idx, "hv_bus", r.hv_bus)]))
  let trafo3w_check := net.trafo3w.flatMap (fun r =>
    (if mbiBusMem net r.lv_bus then [] else [(r.idx, "lv_bus", r.lv_bus)]) ++
    (if mbiBusMem net r.mv_bus then [] else [(r.idx, "mv_bus", r.mv_bus)]) ++
    (if mbiBusMem net r.hv_bus then [] else [(r.idx, "hv_bus", r.hv_bus)]))
  let line_check := net.line.flatMap (fun r =>
    (if mbiBusMem net r.from_bus then [] else [(r.idx, "from_bus", r.from_bus)]) ++
    (if mbiBusMem net r.to_bus then [] else [(r.idx, "to_bus", r.to_bus)]))
  (if ext_grid_check ≠ [] then [("ext_grid", ext_grid_check)] else []) ++
  (if load_check ≠ [] then [("load", load_check)] else []) ++
  (if gen_check ≠ [] then [("gen", gen_check)] else []) ++
  (if sgen_check ≠ [] then [("sgen", sgen_check)] else []) ++
  (if trafo_check ≠ [] then [("trafo", trafo_check)] else []) ++
  (if trafo3w_check ≠ [] then [("trafo3w", trafo3w_check)] else []) ++
  (if mbiSwitchCheck net ≠ [] then [("switch", mbiSwitchCheck net)] else []) ++
  (if line_check ≠ [] then [("line", line_check)] else [])

/-- `missing_bus_indices` (diagnostic.py:478): identifiers referenced by
element rows that are absent from the bus index.  A switch's `element`
reference is exempt when its element-type tag is "l", "t" or "t3" (it
addresses a line/transformer, not a bus). -/
def missing_bus_indices (net : Net) :
    Option (List (String × List (Nat × String × Nat))) :=
  if mbiCheckResults net ≠ [] then some (mbiCheckResults net) else none

/-- Bus lookup `net.bus.loc[b]` / `net.bus.vn_kv.at[b]`: raises `KeyError`
when the label is absent. -/
def busVn (net : Net) (b : Nat) : Except Exc Rat :=
  match net.bus.find? (fun r => r.idx = b) with
  | some r => .ok r.vn_kv
  | none => .error (.otherError "KeyError")

/-- `different_voltage_levels_connected` (diagnostic.py:511): lines and
bus-bus switches joining buses of different nominal voltage.  The pandas
`.loc` lookups raise `KeyError` on a missing bus label. -/
def different_voltage_levels_connected (net : Net) :
    Except Exc (Option (List (String × List Nat))) := do
  let inconsistent_lines ← net.line.foldlM (fun acc l => do
    let v1 ← busVn net l.from_bus
    let v2 ← busVn net l.to_bus
    pure (if v1 ≠ v2 then acc ++ [l.idx] else acc)) ([] : List Nat)
  let inconsistent_switches ← (net.switch.filter (fun s => s.et = "b")).foldlM
    (fun acc s => do
      let v1 ← busVn net s.bus
      let v2 ← busVn net s.element
      pure (if v1 ≠ v2 then acc ++ [s.idx] else acc)) ([] : List Nat)
  let check_results :=
    (if inconsistent_lines ≠ [] then [("lines", inconsistent_lines)] else []) ++
    (if inconsistent_switches ≠ [] then [("switches", inconsistent_switches)] else [])
  pure (if check_results ≠ [] then some check_results else none)

/-- A reported cell value in an `invalid_values` finding (the offending
attribute's value, as stored in the table). -/
inductive CellV where
  | qv (x : Rat)
  | bv (x : Bool)
  | nv (x : Nat)
  | sv (x : String)
deriving DecidableEq, Repr

/-- `invalid_values` (diagnostic.py:247): violations of the per-column input
type restrictions.  In this embedding the columns are typed (rationals,
booleans, naturals, strings), so the `check_number`, `check_boolean` and
`check_pos_int` restrictions hold by construction and only the numeric range
restrictions and the switch-type restriction can be violated.  The Python
code iterates column-restriction pairs in declaration order and, for each,
all rows of the table. -/
def invalid_values (net : Net) :
    Option (List (String × List (Nat × String × CellV × String))) :=
  let busViol :=
    net.bus.filterMap (fun r =>
      if r.vn_kv ≤ 0 then some (r.idx, "vn_kv", CellV.qv r.vn_kv, ">0") else none)
  let lineViol :=
    net.line.filterMap (fun r =>
      if r.length_km ≤ 0 then some (r.idx, "length_km", CellV.qv r.length_km, ">0") else none) ++
    net.line.filterMap (fun r =>
      if r.r_ohm_per_km < 0 then some (r.idx, "r_ohm_per_km", CellV.qv r.r_ohm_per_km, ">=0") else none) ++
    net.line.filterMap (fun r =>
      if r.x_ohm_per_km < 0 then some (r.idx, "x_ohm_per_km", CellV.qv r.x_ohm_per_km, ">=0") else none) ++
    net.line.filterMap (fun r =>
      if r.c_nf_per_km < 0 then some (r.idx, "c_nf_per_km", CellV.qv r.c_nf_per_km, ">=0") else none) ++
    net.line.filterMap (fun r =>
      if r.max_i_ka ≤ 0 then some (r.idx, "max_i_ka", CellV.qv r.max_i_ka, ">0") else none) ++
    net.line.filterMap (fun r =>
      if ¬ (0 < r.df ∧ r.df ≤ 1) then some (r.idx, "df", CellV.qv r.df, "0<x<=1") else none)
  let trafoViol :=
    net.trafo.filterMap (fun r =>
      if r.sn_mva ≤ 0 then some (r.idx, "sn_mva", CellV.qv r.sn_mva, ">0") else none) ++
    net.trafo.filterMap (fun r =>
      if r.vn_hv_kv ≤ 0 then some (r.idx, "vn_hv_kv", CellV.qv r.vn_hv_kv, ">0") else none) ++
    net.trafo.filterMap (fun r =>
      if r.vn_lv_kv ≤ 0 then some (r.idx, "vn_lv_kv", CellV.qv r.vn_lv_kv, ">0") else none) ++
    net.trafo.filterMap (fun r =>
      if r.vkr_percent < 0 then some (r.idx, "vkr_percent", CellV.qv r.vkr_percent, ">=0") else none) ++
    net.trafo.filterMap (fun r =>
      if r.vk_percent ≤ 0 then some (r.idx, "vk_percent", CellV.qv r.vk_percent, ">0") else none) ++
    net.trafo.filterMap (fun r =>
      if r.vkr_percent ≥ 15 then some (r.idx, "vkr_percent", CellV.qv r.vkr_percent, "<15") else none) ++
    net.trafo.filterMap (fun r =>
      if r.vk_percent ≥ 15 then some (r.idx, "vk_percent", CellV.qv r.vk_percent, "<15") else none) ++
    net.trafo.filterMap (fun r =>
      if r.pfe_kw < 0 then some (r.idx, "pfe_kw", CellV.qv r.pfe_kw, ">=0") else none) ++
    net.trafo.filterMap (fun r =>
      if r.i0_percent < 0 then some (r.idx, "i0_percent", CellV.qv r.i0_percent, ">=0") else none)
  let trafo3wViol :=
    net.trafo3w.filterMap (fun r =>
      if r.sn_hv_mva ≤ 0 then some (r.idx, "sn_hv_mva", CellV.qv r.sn_hv_mva, ">0") else none) ++
    net.trafo3w.filterMap (fun r =>
      if r.sn_mv_mva ≤ 0 then some (r.idx, "sn_mv_mva", CellV.qv r.sn_mv_mva, ">0") else none) ++
    net.trafo3w.filterMap (fun r =>
      if r.sn_lv_mva ≤ 0 then some (r.idx, "sn_lv_mva", CellV.qv r.sn_lv_mva, ">0") else none) ++
    net.trafo3w.filterMap (fun r =>
      if r.vn_hv_kv ≤ 0 then some (r.idx, "vn_hv_kv", CellV.qv r.vn_hv_kv, ">0") else none) ++
    net.trafo3w.filterMap (fun r =>
      if r.vn_mv_kv ≤ 0 then some (r.idx, "vn_mv_kv", CellV.qv r.vn_mv_kv, ">0") else none) ++
    net.trafo3w.filterMap (fun r =>
      if r.vn_lv_kv ≤ 0 then some (r.idx, "vn_lv_kv", CellV.qv r.vn_lv_kv, ">0") else none) ++
    net.trafo3w.filterMap (fun r =>
      if r.vkr_hv_percent < 0 then some (r.idx, "vkr_hv_percent", CellV.qv r.vkr_hv_percent, ">=0") else none) ++
    net.trafo3w.filterMap (fun r =>
      if r.vkr_mv_percent < 0 then some (r.idx, "vkr_mv_percent", CellV.qv r.vkr_mv_percent, ">=0") else none) ++
    net.trafo3w.filterMap (fun r =>
      if r.vkr_lv_percent < 0 then some (r.idx, "vkr_lv_percent", CellV.qv r.vkr_lv_percent, ">=0") else none) ++
    net.trafo3w.filterMap (fun r =>
      if r.vk_hv_percent ≤ 0 then some (r.idx, "vk_hv_percent", CellV.qv r.vk_hv_percent, ">0") else none) ++
    net.trafo3w.filterMap (fun r =>
      if r.vk_mv_percent ≤ 0 then some (r.idx, "vk_mv_percent", CellV.qv r.vk_mv_percent, ">0") else none) ++
    net.trafo3w.filterMap (fun r =>
      if r.vk_lv_percent ≤ 0 then some (r.idx, "vk_lv_percent", CellV.qv r.vk_lv_percent, ">0") else none) ++
    net.trafo3w.filterMap (fun r =>
      if r.vkr_hv_percent ≥ 15 then some (r.idx, "vkr_hv_percent", CellV.qv r.vkr_hv_percent, "<15") else none) ++
    net.trafo3w.filterMap (fun r =>
      if r.vkr_mv_percent ≥ 15 then some (r.idx, "vkr_mv_percent", CellV.qv r.vkr_mv_percent, "<15") else none) ++
    net.trafo3w.filterMap (fun r =>
      if r.vkr_lv_percent ≥ 15 then some (r.idx, "vkr_lv_percent", CellV.qv r.vkr_lv_percent, "<15") else none) ++
    net.trafo3w.filterMap (fun r =>
      if r.vk_hv_percent ≥ 15 then some (r.idx, "vk_hv_percent", CellV.qv r.vk_hv_percent, "<15") else none) ++
    net.trafo3w.filterMap (fun r =>
      if r.vk_mv_percent ≥ 15 then some (r.idx, "vk_mv_percent", CellV.qv r.vk_mv_percent, "<15") else none) ++
    net.trafo3w.filterMap (fun r =>
      if r.vk_lv_percent ≥ 15 then some (r.idx, "vk_lv_percent", CellV.qv r.vk_lv_percent, "<15") else none) ++
    net.trafo3w.filterMap (fun r =>
      if r.pfe_kw < 0 then some (r.idx, "pfe_kw", CellV.qv r.pfe_kw, ">=0") else none) ++
    net.trafo3w.filterMap (fun r =>
      if r.i0_percent < 0 then some (r.idx, "i0_percent", CellV.qv r.i0_percent, ">=0") else none)
  let loadViol :=
    net.load.filterMap (fun r =>
      if r.scaling < 0 then some (r.idx, "scaling", CellV.qv r.scaling, ">=0") else none)
  let sgenViol :=
    net.sgen.filterMap (fun r =>
      if r.scaling < 0 then some (r.idx, "scaling", CellV.qv r.scaling, ">=0") else none)
  let genViol :=
    net.gen.filterMap (fun r =>
      if r.scaling < 0 then some (r.idx, "scaling", CellV.qv r.scaling, ">=0") else none)
  let extGridViol :=
    net.ext_grid.filterMap (fun r =>
      if r.vm_pu ≤ 0 then some (r.idx, "vm_pu", CellV.qv r.vm_pu, ">0") else none)
  let switchViol :=
    net.switch.filterMap (fun r =>
      if r.et ≠ "b" ∧ r.et ≠ "l" ∧ r.et ≠ "t" ∧ r.et ≠ "t3"
      then some (r.idx, "et", CellV.sv r.et, "switch_type") else none)
  let check_results :=
    (if busViol ≠ [] then [("bus", busViol)] else []) ++
    (if lineViol ≠ [] then [("line", lineViol)] else []) ++
    (if trafoViol ≠ [] then [("trafo", trafoViol)] else []) ++
    (if trafo3wViol ≠ [] then [("trafo3w", trafo3wViol)] else []) ++
    (if loadViol ≠ [] then [("load", loadViol)] else []) ++
    (if sgenViol ≠ [] then [("sgen", sgenViol)] else []) ++
    (if genViol ≠ [] then [("gen", genViol)] else []) ++
    (if extGridViol ≠ [] then [("ext_grid", extGridViol)] else []) ++
    (if switchViol ≠ [] then [("switch", switchViol)] else [])
  if check_results ≠ [] then some check_results else none

/-- Ascending sort of two values (numpy `.sort()` on a 2-vector). -/
def sort2 (a b : Rat) : Rat × Rat := if a ≤ b then (a, b) else (b, a)

/-- Ascending sort of three values (numpy `.sort()` on a 3-vector). -/
def sort3 (a b c : Rat) : Rat × Rat × Rat :=
  let (x, y) := sort2 a b
  let (y', z) := sort2 y c
  let (x', y'') := sort2 x y'
  (x', y'', z)

/-- `nominal_voltages_dont_match` (diagnostic.py:685): transformers whose
nameplate voltages deviate from their buses' nominal voltages by more than
the tolerance; if all sides deviate but the sorted nameplate and bus voltages
pairwise agree within tolerance, the connectors are classified as swapped.
The `net.bus.vn_kv.at[...]` lookups raise `KeyError` on a missing bus. -/
def nominal_voltages_dont_match (net : Net) (nom_voltage_tolerance : Rat) :
    Except Exc (Option (List (String × List (String × List Nat)))) := do
  let acc0 : List Nat × List Nat × List Nat := ([], [], [])
  let (hv_bus, lv_bus, hv_lv_swapped) ← net.trafo.foldlM (fun acc t => do
    let (hv, lv, sw) := acc
    let hv_bus_vn_kv ← busVn net t.hv_bus
    let lv_bus_vn_kv ← busVn net t.lv_bus
    let hv_bus_violation := |1 - t.vn_hv_kv / hv_bus_vn_kv| > nom_voltage_tolerance
    let lv_bus_violation := |1 - t.vn_lv_kv / lv_bus_vn_kv| > nom_voltage_tolerance
    let connectors_swapped :=
      if hv_bus_violation ∧ lv_bus_violation then
        let (tv1, tv2) := sort2 t.vn_hv_kv t.vn_lv_kv
        let (bv1, bv2) := sort2 hv_bus_vn_kv lv_bus_vn_kv
        |tv1 - bv1| / bv1 < nom_voltage_tolerance ∧ |tv2 - bv2| / bv2 < nom_voltage_tolerance
      else False
    pure (if connectors_swapped then (hv, lv, sw ++ [t.idx])
          else ((if hv_bus_violation then hv ++ [t.idx] else hv),
                (if lv_bus_violation then lv ++ [t.idx] else lv), sw))) acc0
  let trafo_results :=
    (if hv_bus ≠ [] then [("hv_bus", hv_bus)] else []) ++
    (if lv_bus ≠ [] then [("lv_bus", lv_bus)] else []) ++
    (if hv_lv_swapped ≠ [] then [("hv_lv_swapped", hv_lv_swapped)] else [])
  let acc1 : List Nat × List Nat × List Nat × List Nat := ([], [], [], [])
  let (hv3, mv3, lv3, swapped3) ← net.trafo3w.foldlM (fun acc t => do
    let (hv, mv, lv, sw) := acc
    let hv_bus_vn_kv ← busVn net t.hv_bus
    let mv_bus_vn_kv ← busVn net t.mv_bus
    let lv_bus_vn_kv ← busVn net t.lv_bus
    let hv_bus_violation := |1 - t.vn_hv_kv / hv_bus_vn_kv| > nom_voltage_tolerance
    let mv_bus_violation := |1 - t.vn_mv_kv / mv_bus_vn_kv| > nom_voltage_tolerance
    let lv_bus_violation := |1 - t.vn_lv_kv / lv_bus_vn_kv| > nom_voltage_tolerance
    let connectors_swapped :=
      if hv_bus_violation ∧ mv_bus_violation ∧ lv_bus_violation then
        let (tv1, tv2, tv3) := sort3 t.vn_hv_kv t.vn_mv_kv t.vn_lv_kv
        let (bv1, bv2, bv3) := sort3 hv_bus_vn_kv mv_bus_vn_kv lv_bus_vn_kv
        |tv1 - bv1| / bv1 < nom_voltage_tolerance ∧
        |tv2 - bv2| / bv2 < nom_voltage_tolerance ∧
        |tv3 - bv3| / bv3 < nom_voltage_tolerance
      else False
    pure (if connectors_swapped then (hv, mv, lv, sw ++ [t.idx])
          else ((if hv_bus_violation then hv ++ [t.idx] else hv),
                (if mv_bus_violation then mv ++ [t.idx] else mv),
                (if lv_bus_violation then lv ++ [t.idx] else lv), sw))) acc1
  let trafo3w_results :=
    (if hv3 ≠ [] then [("hv_bus", hv3)] else []) ++
    (if mv3 ≠ [] then [("mv_bus", mv3)] else []) ++
    (if lv3 ≠ [] then [("lv_bus", lv3)] else []) ++
    (if swapped3 ≠ [] then [("connectors_swapped_3w", swapped3)] else [])
  let results :=
    (if trafo_results ≠ [] then [("trafo", trafo_results)] else []) ++
    (if trafo3w_results ≠ [] then [("trafo3w", trafo3w_results)] else [])
  pure (if results.length > 0 then some results else none)

/-- One entry of a `deviation_from_std_type` finding: either the last
parameter found to deviate from the standard-type template (with the element
value and the template value; `std_type_in_lib` is true), or the claim of a
template absent from the library. -/
inductive DevEntry where
  | mismatch (param : String) (e_value : Rat) (std_value : Rat)
  | notInLib
deriving DecidableEq, Repr

/-- `np.isclose` with its default tolerances (`rtol=1e-5`, `atol=1e-8`). -/
def npIsClose (a b : Rat) : Bool :=
  |a - b| ≤ 1 / 100000000 + (1 / 100000) * |b|

/-- The numeric columns of `net.line` addressable by name in the
standard-type comparison (`param in net[key].columns`). -/
def lineParamGet (r : LineRow) : String → Option Rat
  | "length_km" => some r.length_km
  | "r_ohm_per_km" => some r.r_ohm_per_km
  | "x_ohm_per_km" => some r.x_ohm_per_km
  | "c_nf_per_km" => some r.c_nf_per_km
  | "max_i_ka" => some r.max_i_ka
  | "df" => some r.df
  | _ => none

/-- The numeric columns of `net.trafo` addressable by name. -/
def trafoParamGet (r : TrafoRow) : String → Option Rat
  | "sn_mva" => some r.sn_mva
  | "vn_hv_kv" => some r.vn_hv_kv
  | "vn_lv_kv" => some r.vn_lv_kv
  | "vk_percent" => some r.vk_percent
  | "vkr_percent" => some r.vkr_percent
  | "pfe_kw" => some r.pfe_kw
  | "i0_percent" => some r.i0_percent
  | _ => none

/-- The numeric columns of `net.trafo3w` addressable by name. -/
def trafo3wParamGet (r : Trafo3wRow) : String → Option Rat
  | "sn_hv_mva" => some r.sn_hv_mva
  | "sn_mv_mva" => some r.sn_mv_mva
  | "sn_lv_mva" => some r.sn_lv_mva
  | "vn_hv_kv" => some r.vn_hv_kv
  | "vn_mv_kv" => some r.vn_mv_kv
  | "vn_lv_kv" => some r.vn_lv_kv
  | "vk_hv_percent" => some r.vk_hv_percent
  | "vk_mv_percent" => some r.vk_mv_percent
  | "vk_lv_percent" => some r.vk_lv_percent
  | "vkr_hv_percent" => some r.vkr_hv_percent
  | "vkr_mv_percent" => some r.vkr_mv_percent
  | "vkr_lv_percent" => some r.vkr_lv_percent
  | "pfe_kw" => some r.pfe_kw
  | "i0_percent" => some r.i0_percent
  | _ => none

/-- Deviation entry for one element row given its declared standard type:
iterate the template's parameters in order (skipping `tap_pos` and parameter
names that are not columns); each deviating parameter overwrites the entry,
so the last deviation wins (as the Python dict assignment does). -/
def devEntryFor (stdLib : List (String × List (String × Rat)))
    (std_type : Option String) (get : String → Option Rat) : Option DevEntry :=
  match std_type with
  | none => none
  | some name =>
    match dictGet stdLib name with
    | some std_type_values =>
      std_type_values.foldl (fun acc (pv : String × Rat) =>
        if pv.1 = "tap_pos" then acc
        else match get pv.1 with
          | none => acc
          | some v => if npIsClose v pv.2 then acc else some (.mismatch pv.1 v pv.2)) none
    | none => some .notInLib

/-- `deviation_from_std_type` (diagnostic.py:967): elements whose parameters
deviate from their declared standard type, or that declare a type absent from
the library. -/
def deviation_from_std_type (net : Net) :
    Option (List (String × List (Nat × DevEntry))) :=
  let lineDev := net.line.filterMap (fun r =>
    (devEntryFor net.std_types.line r.std_type (lineParamGet r)).map (fun e => (r.idx, e)))
  let trafoDev := net.trafo.filterMap (fun r =>
    (devEntryFor net.std_types.trafo r.std_type (trafoParamGet r)).map (fun e => (r.idx, e)))
  let trafo3wDev := net.trafo3w.filterMap (fun r =>
    (devEntryFor net.std_types.trafo3w r.std_type (trafo3wParamGet r)).map (fun e => (r.idx, e)))
  let check_results :=
    (if lineDev ≠ [] then [("line", lineDev)] else []) ++
    (if trafoDev ≠ [] then [("trafo", trafoDev)] else []) ++
    (if trafo3wDev ≠ [] then [("trafo3w", trafo3wDev)] else [])
  if check_results ≠ [] then some check_results else none

/-- Lexicographic "less or equal" on switch endpoint triples
(bus, element, et), matching the ascending key order of pandas `groupby`. -/
def tripleLe (a b : Nat × Nat × String) : Bool :=
  a.1 < b.1 ∨ (a.1 = b.1 ∧ (a.2.1 < b.2.1 ∨ (a.2.1 = b.2.1 ∧ compare a.2.2 b.2.2 ≠ .gt)))

/-- `parallel_switches` (diagnostic.py:1014): groups of switches sharing the
same (bus, element, et) endpoint triple, one list per triple with more than
one switch, triples in ascending order. -/
def parallel_switches (net : Net) : Option (List (List Nat)) :=
  let triples := (sortBy tripleLe (net.switch.map (fun s => (s.bus, s.element, s.et)))).dedup
  let parallels_bus_and_element := triples.filter (fun t =>
    net.switch.countP (fun s => (s.bus, s.element, s.et) = t) > 1)
  let result := parallels_bus_and_element.map (fun t =>
    ((net.switch.filter (fun s => (s.bus, s.element, s.et) = t)).map (·.idx)))
  if result ≠ [] then some result else none

/-- Assign a constant to the whole `scaling` column of a load/sgen table
(`net.load.scaling = c`, scalar broadcast). -/
def setScalingAll (t : List LoadRow) (c : Rat) : List LoadRow :=
  t.map (fun r => { r with scaling := c })

/-- Assign a saved column back to the `scaling` column of a load/sgen table
(`net.load.scaling = saved_series`, positional alignment: the probe never
resizes the table). -/
def setScalingCol (t : List LoadRow) (col : List Rat) : List LoadRow :=
  (t.zip col).map (fun rc => { rc.1 with scaling := rc.2 })

/-- Assign a constant to the whole `scaling` column of the gen table. -/
def setGenScalingAll (t : List GenRow) (c : Rat) : List GenRow :=
  t.map (fun r => { r with scaling := c })

/-- Assign a saved column back to the `scaling` column of the gen table. -/
def setGenScalingCol (t : List GenRow) (col : List Rat) : List GenRow :=
  (t.zip col).map (fun rc => { rc.1 with scaling := rc.2 })

/-- Assign `True` to the whole `closed` column of the switch table
(`net.switch.closed = True`). -/
def setClosedAll (t : List SwitchRow) (c : Bool) : List SwitchRow :=
  t.map (fun r => { r with closed := c })

/-- Assign a saved column back to the `closed` column of the switch table. -/
def setClosedCol (t : List SwitchRow) (col : List Bool) : List SwitchRow :=
  (t.zip col).map (fun rc => { rc.1 with closed := rc.2 })

deriving instance DecidableEq for Except

/-- Result of a probe that may mutate the network, invoke the solver and
raise: the network as left behind, the next solver call index, and either a
propagating exception or the Python return value. -/
structure ProbeOut (α : Type) where
  net : Net
  calls : Nat
  result : Except Exc α
deriving DecidableEq

/-- `overload` (diagnostic.py:384): if the unmodified solve raises an expected
non-convergence exception, try scaling down loads, then (after restoring
loads) generation, then both; record which scaling restored convergence.
The saved scaling columns are written back on the expected paths; an
unexpected exception raised by a perturbed re-solve propagates out of the
`except expected_exceptions:` handler, skipping the write-back (there is no
`finally`). -/
def overload (net : Net) (overload_scaling_factor : Rat) (run : Solver)
    (k : Nat) : ProbeOut (Option (List (String × Bool))) :=
  let load_scaling := net.load.map (·.scaling)
  let gen_scaling := net.gen.map (·.scaling)
  let sgen_scaling := net.sgen.map (·.scaling)
  match run k net with
  | .ok => ⟨net, k + 1, .ok none⟩
  | .exn e0 =>
    if e0.isExpected then
      let cr0 := dictSet (dictSet [] "load" false) "generation" false
      let net1 := { net with load := setScalingAll net.load overload_scaling_factor }
      let restore := fun (n : Net) =>
        { n with sgen := setScalingCol n.sgen sgen_scaling,
                 gen := setGenScalingCol n.gen gen_scaling,
                 load := setScalingCol n.load load_scaling }
      match run (k + 1) net1 with
      | .ok =>
        ⟨restore net1, k + 2, .ok (some (dictSet cr0 "load" true))⟩
      | .exn e1 =>
        if e1.isExpected then
          let net2 := { net1 with load := setScalingCol net1.load load_scaling }
          let net3 := { net2 with gen := setGenScalingAll net2.gen overload_scaling_factor,
                                  sgen := setScalingAll net2.sgen overload_scaling_factor }
          match run (k + 2) net3 with
          | .ok =>
            ⟨restore net3, k + 3, .ok (some (dictSet cr0 "generation" true))⟩
          | .exn e2 =>
            if e2.isExpected then
              let net4 := { net3 with sgen := setScalingCol net3.sgen sgen_scaling,
                                      gen := setGenScalingCol net3.gen gen_scaling }
              let net5 := { net4 with load := setScalingAll net4.load overload_scaling_factor,
                                      gen := setGenScalingAll net4.gen overload_scaling_factor,
                                      sgen := setScalingAll net4.sgen overload_scaling_factor }
              match run (k + 3) net5 with
              | .ok =>
                ⟨restore net5, k + 4,
                 .ok (some (dictSet (dictSet cr0 "generation" true) "load" true))⟩
              | .exn e3 =>
                if e3.isExpected then
                  ⟨restore net5, k + 4, .ok (some cr0)⟩
                else ⟨net5, k + 4, .error e3⟩
            else ⟨net3, k + 3, .error e2⟩
        else ⟨net1, k + 2, .error e1⟩
    else ⟨net, k + 1, .ok none⟩

/-- `wrong_switch_configuration` (diagnostic.py:446): if the unmodified solve
raises an expected non-convergence exception, close every switch and
re-solve; report whether that restored convergence, writing the saved
`closed` column back on the expected paths.  An unexpected exception raised
by the perturbed re-solve propagates with the switches left closed. -/
def wrong_switch_configuration (net : Net) (run : Solver) (k : Nat) :
    ProbeOut (Option Bool) :=
  let switch_configuration := net.switch.map (·.closed)
  match run k net with
  | .ok => ⟨net, k + 1, .ok none⟩
  | .exn e0 =>
    if e0.isExpected then
      let net1 := { net with switch := setClosedAll net.switch true }
      match run (k + 1) net1 with
      | .ok =>
        ⟨{ net1 with switch := setClosedCol net1.switch switch_configuration },
         k + 2, .ok (some true)⟩
      | .exn e1 =>
        if e1.isExpected then
          ⟨{ net1 with switch := setClosedCol net1.switch switch_configuration },
           k + 2, .ok (some false)⟩
        else ⟨net1, k + 2, .error e1⟩
    else ⟨net, k + 1, .ok none⟩

/-- Next free row index for a table (pandapower element creation picks the
successor of the highest used index). -/
def newTableIdx (used : List Nat) : Nat :=
  match used with
  | [] => 0
  | _ => used.foldr Nat.max 0 + 1

/-- Modelled from the spec: `pandapower.create_switch(net, bus, element, et="b")`
(the creation helper is not under `src/`) — "bridge the same two terminals
with a closed switch": append a closed bus-bus switch between the two buses. -/
def create_switch (net : Net) (bus element : Nat) : Net :=
  { net with switch := net.switch ++
      [⟨newTableIdx (net.switch.map (·.idx)), bus, element, "b", true⟩] }

/-- Modelled from the spec: `pandapower.create_impedance(net, from_bus, to_bus,
rft_pu, xft_pu, sn_mva)` (not under `src/`) — "substitute the branch with a
small fixed nominal impedance": append an in-service series impedance between
the two buses, the reverse direction defaulting to the forward values. -/
def create_impedance (net : Net) (from_bus to_bus : Nat)
    (rft_pu xft_pu sn_mva : Rat) : Net :=
  { net with impedance := net.impedance ++
      [⟨newTableIdx (net.impedance.map (·.idx)), from_bus, to_bus,
        rft_pu, xft_pu, rft_pu, xft_pu, sn_mva, true⟩] }

/-- Modelled from the spec: `pandapower.replace_xward_by_ward(net, index)`
(not under `src/`) — "substitute with an equivalent static
injector-and-impedance representation": for each selected extended-ward, drop
the xward row and append a ward row carrying its injection values. -/
def replace_xward_by_ward (net : Net) (idxs : List Nat) : Net :=
  let newWards := net.xward.filterMap (fun x =>
    if idxs.contains x.idx then
      some (⟨newTableIdx (net.ward.map (·.idx)) + x.idx, x.bus, x.ps_mw, x.qs_mvar,
             x.pz_mw, x.qz_mvar, x.in_service⟩ : WardRow)
    else none)
  { net with ward := net.ward ++ newWards,
             xward := net.xward.filter (fun x => ¬ idxs.contains x.idx) }

/-- `net[key].loc[idxs, "in_service"] = False` for the element kinds the
implausible-impedance probe can select. -/
def setInServiceFalse (net : Net) (key : String) (idxs : List Nat) : Net :=
  if key = "line" then
    { net with line := net.line.map (fun r =>
        if idxs.contains r.idx then { r with in_service := false } else r) }
  else if key = "xward" then
    { net with xward := net.xward.map (fun r =>
        if idxs.contains r.idx then { r with in_service := false } else r) }
  else if key = "impedance" then
    { net with impedance := net.impedance.map (fun r =>
        if idxs.contains r.idx then { r with in_service := false } else r) }
  else if key = "trafo" then
    { net with trafo := net.trafo.map (fun r =>
        if idxs.contains r.idx then { r with in_service := false } else r) }
  else if key = "trafo3w" then
    { net with trafo3w := net.trafo3w.map (fun r =>
        if idxs.contains r.idx then { r with in_service := false } else r) }
  else if key = "vsc" then
    { net with vsc := net.vsc.map (fun r =>
        if idxs.contains r.idx then { r with in_service := false } else r) }
  else if key = "line_dc" then
    { net with line_dc := net.line_dc.map (fun r =>
        if idxs.contains r.idx then { r with in_service := false } else r) }
  else net

/-- The per-index substitution loop for implausible lines:
`create_switch(net, net.line.from_bus.at[idx], net.line.to_bus.at[idx], et="b")`
(`.at` raises `KeyError` on a missing label). -/
def lineSwitchLoop (net : Net) (idxs : List Nat) : Net × Option Exc :=
  match idxs with
  | [] => (net, none)
  | idx :: rest =>
    match net.line.find? (fun r => r.idx = idx) with
    | none => (net, some (.otherError "KeyError"))
    | some l => lineSwitchLoop (create_switch net l.from_bus l.to_bus) rest

/-- The per-index substitution loop for implausible series impedances. -/
def impedanceSwitchLoop (net : Net) (idxs : List Nat) : Net × Option Exc :=
  match idxs with
  | [] => (net, none)
  | idx :: rest =>
    match net.impedance.find? (fun r => r.idx = idx) with
    | none => (net, some (.otherError "KeyError"))
    | some l => impedanceSwitchLoop (create_switch net l.from_bus l.to_bus) rest

/-- The per-index substitution loop for implausible 2-winding transformers:
one small nominal impedance between the hv and lv bus. -/
def trafoSubstLoop (net : Net) (idxs : List Nat) : Net × Option Exc :=
  match idxs with
  | [] => (net, none)
  | idx :: rest =>
    match net.trafo.find? (fun r => r.idx = idx) with
    | none => (net, some (.otherError "KeyError"))
    | some t =>
      trafoSubstLoop (create_impedance net t.hv_bus t.lv_bus 0 (1/100) 100) rest

/-- The per-index substitution loop for implausible 3-winding transformers:
three small nominal impedances (hv-mv, mv-lv, hv-lv). -/
def trafo3wSubstLoop (net : Net) (idxs : List Nat) : Net × Option Exc :=
  match idxs with
  | [] => (net, none)
  | idx :: rest =>
    match net.trafo3w.find? (fun r => r.idx = idx) with
    | none => (net, some (.otherError "KeyError"))
    | some t =>
      let n1 := create_impedance net t.hv_bus t.mv_bus 0 (1/100) 100
      let n2 := create_impedance n1 t.mv_bus t.lv_bus 0 (1/100) 100
      let n3 := create_impedance n2 t.hv_bus t.lv_bus 0 (1/100) 100
      trafo3wSubstLoop n3 rest

/-- The body of the substitution loop for one key of `implausible_elements`
(diagnostic.py:639-664).  For "vsc" and "line_dc" the trailing `else` branch
evaluates `net[key].from_bus`, a column those tables do not have, raising
`AttributeError`; the writes made before that point remain. -/
def impMutateKey (net : Net) (key : String) (idxs : List Nat) : Net × Option Exc :=
  let n1 := if key = "vsc" then
      { net with vsc := net.vsc.map (fun r =>
          { r with x_ohm := max r.x_ohm (1/2), r_dc_ohm := max r.r_dc_ohm (1/2) }) }
    else net
  let n2 := if key = "line_dc" then
      { n1 with line_dc := n1.line_dc.map (fun r =>
          { r with length_km := max r.length_km (1/2), r_dc_ohm := max r.r_dc_ohm (1/2) }) }
    else n1
  let n3 := setInServiceFalse n2 key idxs
  if key = "xward" then (replace_xward_by_ward n3 idxs, none)
  else if key = "trafo" then trafoSubstLoop n3 idxs
  else if key = "trafo3w" then trafo3wSubstLoop n3 idxs
  else if key = "line" then lineSwitchLoop n3 idxs
  else if key = "impedance" then impedanceSwitchLoop n3 idxs
  else (n3, some (.otherError "AttributeError"))

/-- `for key in implausible_elements:` — run the substitution over the dict in
insertion order, stopping at the first exception (which propagates with the
mutations made so far kept). -/
def impMutateAll (net : Net) (d : List (String × List Nat)) : Net × Option Exc :=
  match d with
  | [] => (net, none)
  | (key, idxs) :: rest =>
    match impMutateKey net key idxs with
    | (n', none) => impMutateAll n' rest
    | (n', some e) => (n', some e)

/-- The nine table restores at diagnostic.py:672-680, executed whenever
control reaches the end of the function body (i.e. on every path on which no
exception propagates). -/
def impRestoreTables (cur orig : Net) : Net :=
  { cur with switch := orig.switch, line := orig.line, impedance := orig.impedance,
             vsc := orig.vsc, line_dc := orig.line_dc, ward := orig.ward,
             xward := orig.xward, trafo := orig.trafo, trafo3w := orig.trafo3w }

/-- One entry of an `implausible_impedance_values` finding: the detection
dictionary (element kind to offending indices), or the recoverability flag
`loadflow_converges_with_switch_replacement`. -/
inductive ImpEntry where
  | elems (d : List (String × List Nat))
  | switchRepl (b : Bool)
deriving DecidableEq, Repr

/-- The line filter of `implausible_impedance_values` (diagnostic.py:566):
in-service lines whose total resistance or reactance lies outside the
configured window (boundaries included on both sides). -/
def impLineFilter (net : Net) (min_r_ohm min_x_ohm max_r_ohm max_x_ohm : Rat) :
    List Nat :=
  (net.line.filter (fun l =>
    (l.r_ohm_per_km * l.length_km ≥ max_r_ohm ∨
     l.r_ohm_per_km * l.length_km ≤ min_r_ohm ∨
     l.x_ohm_per_km * l.length_km ≥ max_x_ohm ∨
     l.x_ohm_per_km * l.length_km ≤ min_x_ohm) ∧ l.in_service)).map (·.idx)

/-- The xward filter (diagnostic.py:572). -/
def impXwardFilter (net : Net) (min_r_ohm min_x_ohm max_r_ohm max_x_ohm : Rat) :
    List Nat :=
  (net.xward.filter (fun x =>
    (|x.r_ohm| ≥ max_r_ohm ∨ |x.r_ohm| ≤ min_r_ohm ∨
     |x.x_ohm| ≥ max_x_ohm ∨ |x.x_ohm| ≤ min_x_ohm) ∧ x.in_service)).map (·.idx)

/-- One row's step of the series-impedance filter (diagnostic.py:578): look
up the base impedances of both terminal buses (raising `KeyError` on a
missing label) and append the row's index when a per-unit value leaves the
scaled window. -/
def impImpStep (net : Net) (min_r_ohm min_x_ohm max_r_ohm max_x_ohm : Rat)
    (acc : List Nat) (r : ImpedanceRow) : Except Exc (List Nat) := do
  let vf ← busVn net r.from_bus
  let vt ← busVn net r.to_bus
  let zb_f_ohm := vf ^ 2 / r.sn_mva
  let zb_t_ohm := vt ^ 2 / r.sn_mva
  pure (if (|r.rft_pu| ≥ max_r_ohm / zb_f_ohm ∨ |r.rft_pu| ≤ min_r_ohm / zb_f_ohm ∨
            |r.xft_pu| ≥ max_x_ohm / zb_f_ohm ∨ |r.xft_pu| ≤ min_x_ohm / zb_f_ohm ∨
            |r.rtf_pu| ≥ max_r_ohm / zb_t_ohm ∨ |r.rtf_pu| ≤ min_r_ohm / zb_t_ohm ∨
            |r.xtf_pu| ≥ max_x_ohm / zb_t_ohm ∨ |r.xtf_pu| ≤ min_x_ohm / zb_t_ohm) ∧
           r.in_service
         then acc ++ [r.idx] else acc)

/-- The series-impedance filter (diagnostic.py:578). -/
def impImpedanceFilter (net : Net) (min_r_ohm min_x_ohm max_r_ohm max_x_ohm : Rat) :
    Except Exc (List Nat) :=
  net.impedance.foldlM (impImpStep net min_r_ohm min_x_ohm max_r_ohm max_x_ohm)
    ([] : List Nat)

/-- The 2-winding transformer filter (diagnostic.py:590). -/
def impTrafoFilter (net : Net) (min_x_ohm max_x_ohm : Rat) : List Nat :=
  (net.trafo.filter (fun t =>
    (t.vk_percent / 100 * t.vn_hv_kv ^ 2 / t.sn_mva ≥ max_x_ohm ∨
     t.vk_percent / 100 * t.vn_lv_kv ^ 2 / t.sn_mva ≤ min_x_ohm) ∧
    t.in_service)).map (·.idx)

/-- The 3-winding transformer filter (diagnostic.py:595). -/
def impTrafo3wFilter (net : Net) (min_x_ohm max_x_ohm : Rat) : List Nat :=
  (net.trafo3w.filter (fun t =>
    (t.vk_hv_percent / 100 * t.vn_hv_kv ^ 2 / t.sn_hv_mva ≥ max_x_ohm ∨
     t.vk_hv_percent / 100 * t.vn_mv_kv ^ 2 / t.sn_hv_mva ≤ min_x_ohm ∨
     t.vk_mv_percent / 100 * t.vn_mv_kv ^ 2 / t.sn_mv_mva ≥ max_x_ohm ∨
     t.vk_mv_percent / 100 * t.vn_lv_kv ^ 2 / t.sn_mv_mva ≤ min_x_ohm ∨
     t.vk_lv_percent / 100 * t.vn_hv_kv ^ 2 / t.sn_lv_mva ≥ max_x_ohm ∨
     t.vk_lv_percent / 100 * t.vn_lv_kv ^ 2 / t.sn_lv_mva ≤ min_x_ohm) ∧
    t.in_service)).map (·.idx)

/-- The converter filter (diagnostic.py:603). -/
def impVscFilter (net : Net) (min_r_ohm min_x_ohm : Rat) : List Nat :=
  (net.vsc.filter (fun v =>
    (v.r_ohm ≤ min_r_ohm ∨ v.x_ohm ≤ min_x_ohm ∨ v.r_dc_ohm ≤ min_r_ohm) ∧
    v.in_service)).map (·.idx)

/-- The DC-line filter (diagnostic.py:607). -/
def impLineDcFilter (net : Net) (min_r_ohm : Rat) : List Nat :=
  (net.line_dc.filter (fun l =>
    l.r_ohm_per_km * l.length_km ≤ min_r_ohm ∧ l.in_service)).map (·.idx)

/-- The detection phase of `implausible_impedance_values`
(diagnostic.py:566-622): apply every filter and build the
`implausible_elements` dictionary in its insertion order. -/
def impDetect (net : Net) (min_r_ohm min_x_ohm max_r_ohm max_x_ohm : Rat) :
    Except Exc (List (String × List Nat)) :=
  match impImpedanceFilter net min_r_ohm min_x_ohm max_r_ohm max_x_ohm with
  | .error e => .error e
  | .ok impedanceIdx =>
    let lineIdx := impLineFilter net min_r_ohm min_x_ohm max_r_ohm max_x_ohm
    let xwardIdx := impXwardFilter net min_r_ohm min_x_ohm max_r_ohm max_x_ohm
    let trafoIdx := impTrafoFilter net min_x_ohm max_x_ohm
    let trafo3wIdx := impTrafo3wFilter net min_x_ohm max_x_ohm
    let vscIdx := impVscFilter net min_r_ohm min_x_ohm
    let line_dcIdx := impLineDcFilter net min_r_ohm
    .ok
      ((if lineIdx ≠ [] then [("line", lineIdx)] else []) ++
       (if xwardIdx ≠ [] then [("xward", xwardIdx)] else []) ++
       (if impedanceIdx ≠ [] then [("impedance", impedanceIdx)] else []) ++
       (if trafoIdx ≠ [] then [("trafo", trafoIdx)] else []) ++
       (if trafo3wIdx ≠ [] then [("trafo3w", trafo3wIdx)] else []) ++
       (if vscIdx ≠ [] then [("vsc", vscIdx)] else []) ++
       (if line_dcIdx ≠ [] then [("line_dc", line_dcIdx)] else []))

/-- The probe phase of `implausible_impedance_values`
(diagnostic.py:624-682), given the detection dictionary: solve, substitute,
re-solve, and restore the nine tables on every path on which no exception
propagates; then return `check_results` when the dictionary is non-empty. -/
def impProbePhase (net : Net) (implausible_elements : List (String × List Nat))
    (run : Solver) (k : Nat) : ProbeOut (Option (List ImpEntry)) :=
  let finish := fun (n : Net) (k' : Nat) (cr : List ImpEntry) =>
    (⟨n, k', .ok (if implausible_elements ≠ [] then some cr else none)⟩ :
      ProbeOut (Option (List ImpEntry)))
  let check_results := [ImpEntry.elems implausible_elements]
  if dictHas implausible_elements "line" ∨ dictHas implausible_elements "impedance" ∨
      dictHas implausible_elements "xward" then
    match run k net with
    | .ok => finish (impRestoreTables net net) (k + 1) check_results
    | .exn e0 =>
      if e0.isExpected ∨ e0 = .floatingPointError then
        match impMutateAll net implausible_elements with
        | (netM, some e) => ⟨netM, k + 1, .error e⟩
        | (netM, none) =>
          match run (k + 1) netM with
          | .ok =>
            finish (impRestoreTables netM net) (k + 2)
              (check_results ++ [ImpEntry.switchRepl true])
          | .exn e1 =>
            if e1.isExpected then
              finish (impRestoreTables netM net) (k + 2)
                (check_results ++ [ImpEntry.switchRepl false])
            else ⟨netM, k + 2, .error e1⟩
      else finish (impRestoreTables net net) (k + 1) check_results
  else finish net k check_results

/-- `implausible_impedance_values` (diagnostic.py:545): detect branch-like
elements whose impedance lies outside the plausible window; when a line,
series impedance or extended ward qualifies, additionally probe whether the
load flow converges after the substitutions, restoring the nine touched
tables on every path on which no exception propagates. -/
def implausible_impedance_values (net : Net)
    (min_r_ohm min_x_ohm max_r_ohm max_x_ohm : Rat) (run : Solver) (k : Nat) :
    ProbeOut (Option (List ImpEntry)) :=
  match impDetect net min_r_ohm min_x_ohm max_r_ohm max_x_ohm with
  | .error e => ⟨net, k, .error e⟩
  | .ok implausible_elements => impProbePhase net implausible_elements run k

/-- An open switch of the given element type attached to branch `element` at
bus `b` (it cuts the branch's connection at that bus). -/
def openSwitchCuts (net : Net) (et : String) (element b : Nat) : Bool :=
  net.switch.any (fun s => s.et = et ∧ s.element = element ∧ s.bus = b ∧ ¬ s.closed)

/-- Modelled from the spec: the connectivity edges of
`pandapower.topology.create_nxgraph` (not under `src/`) — "an undirected graph
whose nodes are bus identifiers and whose edges are induced by in-service
branches and by closed switches"; a branch end attached through an open
switch is disconnected at that end. -/
def topoEdges (net : Net) : List (Nat × Nat) :=
  net.line.filterMap (fun l =>
    if l.in_service ∧ ¬ openSwitchCuts net "l" l.idx l.from_bus ∧
        ¬ openSwitchCuts net "l" l.idx l.to_bus
    then some (l.from_bus, l.to_bus) else none) ++
  net.trafo.filterMap (fun t =>
    if t.in_service ∧ ¬ openSwitchCuts net "t" t.idx t.hv_bus ∧
        ¬ openSwitchCuts net "t" t.idx t.lv_bus
    then some (t.hv_bus, t.lv_bus) else none) ++
  net.trafo3w.flatMap (fun t =>
    if t.in_service then
      (if ¬ openSwitchCuts net "t3" t.idx t.hv_bus ∧ ¬ openSwitchCuts net "t3" t.idx t.mv_bus
       then [(t.hv_bus, t.mv_bus)] else []) ++
      (if ¬ openSwitchCuts net "t3" t.idx t.mv_bus ∧ ¬ openSwitchCuts net "t3" t.idx t.lv_bus
       then [(t.mv_bus, t.lv_bus)] else []) ++
      (if ¬ openSwitchCuts net "t3" t.idx t.hv_bus ∧ ¬ openSwitchCuts net "t3" t.idx t.lv_bus
       then [(t.hv_bus, t.lv_bus)] else [])
    else []) ++
  net.switch.filterMap (fun s =>
    if s.et = "b" ∧ s.closed then some (s.bus, s.element) else none)

/-- Neighbours of a bus in the connectivity graph. -/
def topoAdj (net : Net) (b : Nat) : List Nat :=
  (topoEdges net).filterMap (fun e =>
    if e.1 = b then some e.2 else if e.2 = b then some e.1 else none)

/-- Fuelled breadth-first closure of a bus set under the connectivity graph
(fuel: the number of buses bounds the diameter). -/
def topoClosure (net : Net) : Nat → List Nat → List Nat
  | 0, acc => acc
  | fuel + 1, acc =>
    let next := (acc.flatMap (topoAdj net)).filter (fun b => ¬ acc.contains b)
    if next = [] then acc else topoClosure net fuel (acc ++ next.dedup)

/-- Modelled from the spec: `pandapower.topology.connected_components` (not
under `src/`) — the maximal connected bus sets, produced in first-bus table
order, each as an ascending list. -/
def connected_components (net : Net) : List (List Nat) :=
  let comps := net.bus.foldl (fun (acc : List (List Nat)) b =>
    if acc.any (fun c => c.contains b.idx) then acc
    else acc ++ [sortedDedupNat (topoClosure net net.bus.length [b.idx])]) []
  comps

/-- Modelled from the spec: `get_connected_elements(net, "line", buses,
respect_switches=True, respect_in_service=True)` (not under `src/`) — the
in-service lines electrically reachable from the bus set while respecting
switch state, as an ascending list. -/
def get_connected_lines (net : Net) (buses : List Nat) : List Nat :=
  sortedDedupNat ((net.line.filter (fun l => l.in_service ∧
    ((buses.contains l.from_bus ∧ ¬ openSwitchCuts net "l" l.idx l.from_bus) ∨
     (buses.contains l.to_bus ∧ ¬ openSwitchCuts net "l" l.idx l.to_bus)))).map (·.idx))

/-- Modelled from the spec: the analogous reachable 2-winding transformers. -/
def get_connected_trafos (net : Net) (buses : List Nat) : List Nat :=
  sortedDedupNat ((net.trafo.filter (fun t => t.in_service ∧
    ((buses.contains t.hv_bus ∧ ¬ openSwitchCuts net "t" t.idx t.hv_bus) ∨
     (buses.contains t.lv_bus ∧ ¬ openSwitchCuts net "t" t.idx t.lv_bus)))).map (·.idx))

/-- Modelled from the spec: the analogous reachable 3-winding transformers. -/
def get_connected_trafos3w (net : Net) (buses : List Nat) : List Nat :=
  sortedDedupNat ((net.trafo3w.filter (fun t => t.in_service ∧
    ((buses.contains t.hv_bus ∧ ¬ openSwitchCuts net "t3" t.idx t.hv_bus) ∨
     (buses.contains t.mv_bus ∧ ¬ openSwitchCuts net "t3" t.idx t.mv_bus) ∨
     (buses.contains t.lv_bus ∧ ¬ openSwitchCuts net "t3" t.idx t.lv_bus)))).map (·.idx))

/-- `disconnected_elements` (diagnostic.py:807): per connected component
without an in-service reference source, the in-service elements it contains;
afterwards, transformers isolated by open transformer switches.  The
3-winding isolation set is intersected with the in-service index of
`net.trafo` (sic, diagnostic.py:886: the 2-winding table). -/
def disconnected_elements (net : Net) : Option (List (List (String × List Nat))) :=
  let sections := connected_components net
  let refBuses := (net.ext_grid.filterMap (fun e =>
      if e.in_service then some e.bus else none)) ++
    (net.gen.filterMap (fun g => if g.slack ∧ g.in_service then some g.bus else none))
  let disc_sections := sections.filterMap (fun sec =>
    if ¬ sec.any (fun b => refBuses.contains b) ∧
        (net.bus.any (fun b => sec.contains b.idx ∧ b.in_service)) then
      let section_buses := (net.bus.filter (fun b =>
        sec.contains b.idx ∧ b.in_service)).map (·.idx)
      let section_switches := (net.switch.filter (fun s =>
        section_buses.contains s.bus)).map (·.idx)
      let section_lines := get_connected_lines net section_buses
      let section_trafos := get_connected_trafos net section_buses
      let section_trafos3w := get_connected_trafos3w net section_buses
      let section_gens := (net.gen.filter (fun g =>
        sec.contains g.bus ∧ g.in_service)).map (·.idx)
      let section_sgens := (net.sgen.filter (fun s =>
        sec.contains s.bus ∧ s.in_service)).map (·.idx)
      let section_loads := (net.load.filter (fun l =>
        sec.contains l.bus ∧ l.in_service)).map (·.idx)
      let section_dict :=
        (if section_buses ≠ [] then [("buses", section_buses)] else []) ++
        (if section_switches ≠ [] then [("switches", section_switches)] else []) ++
        (if section_lines ≠ [] then [("lines", section_lines)] else []) ++
        (if section_trafos ≠ [] then [("trafos", section_trafos)] else []) ++
        (if section_trafos3w ≠ [] then [("trafos3w", section_trafos3w)] else []) ++
        (if section_loads ≠ [] then [("loads", section_loads)] else []) ++
        (if section_gens ≠ [] then [("gens", section_gens)] else []) ++
        (if section_sgens ≠ [] then [("sgens", section_sgens)] else [])
      if section_dict.any (fun kv => kv.2 ≠ []) then some section_dict else none
    else none)
  let open_trafo_switches := net.switch.filter (fun s => s.et = "t" ∧ s.closed = false)
  let isolated_trafos := (sortedDedupNat (open_trafo_switches.map (·.element))).filter
    (fun e => open_trafo_switches.countP (fun s => s.element = e) > 1)
  let isolated_trafos_is := isolated_trafos.filter (fun e =>
    net.trafo.any (fun t => t.idx = e ∧ t.in_service))
  let isolated_trafos3w := (sortedDedupNat (open_trafo_switches.map (·.element))).filter
    (fun e => open_trafo_switches.countP (fun s => s.element = e) > 2)
  let isolated_trafos3w_is := isolated_trafos3w.filter (fun e =>
    net.trafo.any (fun t => t.idx = e ∧ t.in_service))
  let disc_elements := disc_sections ++
    (if isolated_trafos_is ≠ [] then [[("isolated_trafos", isolated_trafos_is)]] else []) ++
    (if isolated_trafos3w_is ≠ [] then [[("isolated_trafos3w", isolated_trafos3w_is)]] else [])
  if disc_elements ≠ [] then some disc_elements else none

/-- `numba_comparison` (diagnostic.py:924): solve twice (once per numba mode)
and report per-table, per-column deviations above the tolerance.  The solver
of this embedding is outcome-only (the result tables live outside the model),
so when both calls return the two result snapshots are equal and no deviation
is found; an exception from either call propagates. -/
def numba_comparison (net : Net) (numba_tolerance : Rat) (run : Solver)
    (k : Nat) : ProbeOut (Option (List (String × List (String × List (Nat × Rat))))) :=
  match run k net with
  | .exn e => ⟨net, k + 1, .error e⟩
  | .ok =>
    match run (k + 1) net with
    | .exn e => ⟨net, k + 2, .error e⟩
    | .ok => ⟨net, k + 2, .ok none⟩

/-- The payload of one finding, tagged by the producing check. -/
inductive Payload where
  | missingBus (d : List (String × List (Nat × String × Nat)))
  | disconnected (d : List (List (String × List Nat)))
  | diffVoltage (d : List (String × List Nat))
  | implausibleImp (d : List ImpEntry)
  | nomVoltage (d : List (String × List (String × List Nat)))
  | invalidVals (d : List (String × List (Nat × String × CellV × String)))
  | overloadRes (d : List (String × Bool))
  | wrongSwitch (b : Bool)
  | multVC (d : List (String × List Nat))
  | noExtGrid (b : Bool)
  | wrongRef (d : List (String × List Nat))
  | stdDev (d : List (String × List (Nat × DevEntry)))
  | numbaCmp (d : List (String × List (String × List (Nat × Rat))))
  | parallelSw (d : List (List Nat))
deriving DecidableEq, Repr

/-- A catalog entry as the orchestrator invokes it: the check observes the
network and the solver-call counter and yields the (possibly mutated)
network, the new counter, and either a propagating exception or an optional
finding. -/
def DiagCheckFun : Type := Net → Nat → ProbeOut (Option Payload)

/-- Lift a pure solver-free check into a catalog entry. -/
def liftPure (f : Net → Option Payload) : DiagCheckFun :=
  fun net k => ⟨net, k, .ok (f net)⟩

/-- Lift a solver-free check that may raise into a catalog entry. -/
def liftExc (f : Net → Except Exc (Option Payload)) : DiagCheckFun :=
  fun net k => ⟨net, k, f net⟩

/-- The configuration parameters of `diagnostic` (its keyword arguments with
their defaults). -/
structure DiagConfig where
  overload_scaling_factor : Rat := 1 / 1000
  min_r_ohm : Rat := 1 / 1000
  min_x_ohm : Rat := 1 / 1000
  max_r_ohm : Rat := 100
  max_x_ohm : Rat := 100
  nom_voltage_tolerance : Rat := 3 / 10
  numba_tolerance : Rat := 1 / 100000
deriving DecidableEq, Repr

/-- The fixed check catalog `diag_functions` (diagnostic.py:89), in order. -/
def diag_functions (cfg : DiagConfig) (run : Solver) : List (String × DiagCheckFun) :=
  [("missing_bus_indices", liftPure (fun net => (missing_bus_indices net).map .missingBus)),
   ("disconnected_elements", liftPure (fun net => (disconnected_elements net).map .disconnected)),
   ("different_voltage_levels_connected",
     liftExc (fun net => (different_voltage_levels_connected net).map (·.map .diffVoltage))),
   ("implausible_impedance_values", fun net k =>
     let o := implausible_impedance_values net cfg.min_r_ohm cfg.min_x_ohm
       cfg.max_r_ohm cfg.max_x_ohm run k
     ⟨o.net, o.calls, o.result.map (·.map .implausibleImp)⟩),
   ("nominal_voltages_dont_match",
     liftExc (fun net =>
       (nominal_voltages_dont_match net cfg.nom_voltage_tolerance).map (·.map .nomVoltage))),
   ("invalid_values", liftPure (fun net => (invalid_values net).map .invalidVals)),
   ("overload", fun net k =>
     let o := overload net cfg.overload_scaling_factor run k
     ⟨o.net, o.calls, o.result.map (·.map .overloadRes)⟩),
   ("wrong_switch_configuration", fun net k =>
     let o := wrong_switch_configuration net run k
     ⟨o.net, o.calls, o.result.map (·.map .wrongSwitch)⟩),
   ("multiple_voltage_controlling_elements_per_bus",
     liftPure (fun net => (multiple_voltage_controlling_elements_per_bus net).map .multVC)),
   ("no_ext_grid", liftPure (fun net => (no_ext_grid net).map .noExtGrid)),
   ("wrong_reference_system", liftPure (fun net => (wrong_reference_system net).map .wrongRef)),
   ("deviation_from_std_type", liftPure (fun net => (deviation_from_std_type net).map .stdDev)),
   ("numba_comparison", fun net k =>
     let o := numba_comparison net cfg.numba_tolerance run k
     ⟨o.net, o.calls, o.result.map (·.map .numbaCmp)⟩),
   ("parallel_switches", liftPure (fun net => (parallel_switches net).map .parallelSw))]

/-- The orchestrator loop (diagnostic.py:107-115): invoke every catalog entry
in order; a returned finding is recorded under the check's name, a raised
exception is recorded under the check's name in the error mapping, and in
either case the loop continues with the network state the check left behind. -/
def diagLoop (checks : List (String × DiagCheckFun)) (net : Net) (k : Nat) :
    Net × Nat × List (String × Payload) × List (String × Exc) :=
  match checks with
  | [] => (net, k, [], [])
  | (name, f) :: rest =>
    let out := f net k
    let (n', k', rs, es) := diagLoop rest out.net out.calls
    match out.result with
    | .ok none => (n', k', rs, es)
    | .ok (some p) => (n', k', (name, p) :: rs, es)
    | .error e => (n', k', rs, (name, e) :: es)

/-- The whole pipeline: the orchestrator applied to the fixed catalog,
returning the final network state, the solver-call counter, and the two
mappings `diag_results` and `diag_errors`. -/
def diagnosticCore (net : Net) (cfg : DiagConfig) (run : Solver) (k : Nat) :
    Net × Nat × List (String × Payload) × List (String × Exc) :=
  diagLoop (diag_functions cfg run) net k

/-- `diagnostic` (diagnostic.py:33): runs the pipeline, hands
`diag_results`, `diag_errors` and the parameters to the external report
renderer (out of scope: it only renders), and returns `diag_results` when
`return_result_dict` is true — and `None` otherwise.  `diag_errors` is not
part of the return value. -/
def diagnostic (net : Net) (cfg : DiagConfig) (run : Solver) (k : Nat)
    (return_result_dict : Bool) : Net × Nat × Option (List (String × Payload)) :=
  let (n', k', rs, _es) := diagnosticCore net cfg run k
  (n', k', if return_result_dict then some rs else none)

/-! ### Helper lemmas: writing a saved column back restores the table -/

theorem setScalingCol_setScalingAll (t : List LoadRow) (c : Rat) :
    setScalingCol (setScalingAll t c) (t.map (·.scaling)) = t := by
  induction t with
  | nil => rfl
  | cons r rest ih =>
    simp only [setScalingAll, setScalingCol, List.map_cons, List.zip_cons_cons] at *
    simp [ih]

theorem setScalingCol_self (t : List LoadRow) :
    setScalingCol t (t.map (·.scaling)) = t := by
  induction t with
  | nil => rfl
  | cons r rest ih =>
    simp only [setScalingCol, List.map_cons, List.zip_cons_cons] at *
    simp [ih]

theorem setGenScalingCol_setGenScalingAll (t : List GenRow) (c : Rat) :
    setGenScalingCol (setGenScalingAll t c) (t.map (·.scaling)) = t := by
  induction t with
  | nil => rfl
  | cons r rest ih =>
    simp only [setGenScalingAll, setGenScalingCol, List.map_cons, List.zip_cons_cons] at *
    simp [ih]

theorem setGenScalingCol_self (t : List GenRow) :
    setGenScalingCol t (t.map (·.scaling)) = t := by
  induction t with
  | nil => rfl
  | cons r rest ih =>
    simp only [setGenScalingCol, List.map_cons, List.zip_cons_cons] at *
    simp [ih]

theorem setClosedCol_setClosedAll (t : List SwitchRow) (c : Bool) :
    setClosedCol (setClosedAll t c) (t.map (·.closed)) = t := by
  induction t with
  | nil => rfl
  | cons r rest ih =>
    simp only [setClosedAll, setClosedCol, List.map_cons, List.zip_cons_cons] at *
    simp [ih]

/-- On every branch of `overload` on which no exception propagates, the
Python control flow reaches the write-backs at diagnostic.py:437-439 and the
final network equals the initial one; on the other branches the result is a
propagating exception. -/
theorem overload_net_eq_or_error (net : Net) (fac : Rat) (run : Solver) (k : Nat) :
    (overload net fac run k).net = net ∨
      ∃ e, (overload net fac run k).result = .error e := by
  unfold overload
  dsimp only
  split
  · left; rfl
  · split
    · split
      · left
        simp [setScalingCol_setScalingAll, setScalingCol_self, setGenScalingCol_self]
      · split
        · split
          · left
            simp [setScalingCol_setScalingAll, setScalingCol_self,
              setGenScalingCol_self, setGenScalingCol_setGenScalingAll]
          · split
            · split
              · left
                simp [setScalingCol_setScalingAll, setScalingCol_self,
                  setGenScalingCol_self, setGenScalingCol_setGenScalingAll]
              · split
                · left
                  simp [setScalingCol_setScalingAll, setScalingCol_self,
                    setGenScalingCol_self, setGenScalingCol_setGenScalingAll]
                · right; exact ⟨_, rfl⟩
            · right; exact ⟨_, rfl⟩
        · right; exact ⟨_, rfl⟩
    · left; rfl

/-- Analogue of `overload_net_eq_or_error` for the switch-configuration
probe. -/
theorem wsc_net_eq_or_error (net : Net) (run : Solver) (k : Nat) :
    (wrong_switch_configuration net run k).net = net ∨
      ∃ e, (wrong_switch_configuration net run k).result = .error e := by
  unfold wrong_switch_configuration
  dsimp only
  split
  · left; rfl
  · split
    · split
      · left; simp [setClosedCol_setClosedAll]
      · split
        · left; simp [setClosedCol_setClosedAll]
        · right; exact ⟨_, rfl⟩
    · left; rfl

/-- Agreement of two networks on the tables the impedance probe never
touches (everything outside the nine snapshot/restored tables). -/
def OffProbeEq (m n : Net) : Prop :=
  m.bus = n.bus ∧ m.load = n.load ∧ m.sgen = n.sgen ∧ m.gen = n.gen ∧
  m.ext_grid = n.ext_grid ∧ m.std_types = n.std_types

theorem offProbeEq_refl (n : Net) : OffProbeEq n n := ⟨rfl, rfl, rfl, rfl, rfl, rfl⟩

theorem offProbeEq_trans {a b c : Net} (h1 : OffProbeEq a b) (h2 : OffProbeEq b c) :
    OffProbeEq a c := by
  obtain ⟨x1, x2, x3, x4, x5, x6⟩ := h1
  obtain ⟨y1, y2, y3, y4, y5, y6⟩ := h2
  exact ⟨x1.trans y1, x2.trans y2, x3.trans y3, x4.trans y4, x5.trans y5, x6.trans y6⟩

/-- Restoring the nine snapshot tables of a network that agrees with the
snapshot source everywhere else reproduces the source exactly. -/
theorem impRestoreTables_eq (m n : Net) (h : OffProbeEq m n) :
    impRestoreTables m n = n := by
  obtain ⟨h1, h2, h3, h4, h5, h6⟩ := h
  unfold impRestoreTables
  rw [h1, h2, h3, h4, h5, h6]

theorem offProbe_create_switch (net : Net) (b e : Nat) :
    OffProbeEq (create_switch net b e) net := ⟨rfl, rfl, rfl, rfl, rfl, rfl⟩

theorem offProbe_create_impedance (net : Net) (f t : Nat) (r x s : Rat) :
    OffProbeEq (create_impedance net f t r x s) net := ⟨rfl, rfl, rfl, rfl, rfl, rfl⟩

theorem offProbe_replace_xward (net : Net) (idxs : List Nat) :
    OffProbeEq (replace_xward_by_ward net idxs) net := ⟨rfl, rfl, rfl, rfl, rfl, rfl⟩

theorem offProbe_setInServiceFalse (net : Net) (key : String) (idxs : List Nat) :
    OffProbeEq (setInServiceFalse net key idxs) net := by
  unfold setInServiceFalse
  repeat' split
  all_goals exact ⟨rfl, rfl, rfl, rfl, rfl, rfl⟩

theorem offProbe_lineSwitchLoop (idxs : List Nat) (net : Net) :
    OffProbeEq (lineSwitchLoop net idxs).1 net := by
  induction idxs generalizing net with
  | nil => exact offProbeEq_refl _
  | cons i rest ih =>
    unfold lineSwitchLoop
    split
    · exact offProbeEq_refl _
    · exact offProbeEq_trans (ih _) (offProbe_create_switch _ _ _)

theorem offProbe_impedanceSwitchLoop (idxs : List Nat) (net : Net) :
    OffProbeEq (impedanceSwitchLoop net idxs).1 net := by
  induction idxs generalizing net with
  | nil => exact offProbeEq_refl _
  | cons i rest ih =>
    unfold impedanceSwitchLoop
    split
    · exact offProbeEq_refl _
    · exact offProbeEq_trans (ih _) (offProbe_create_switch _ _ _)

theorem offProbe_trafoSubstLoop (idxs : List Nat) (net : Net) :
    OffProbeEq (trafoSubstLoop net idxs).1 net := by
  induction idxs generalizing net with
  | nil => exact offProbeEq_refl _
  | cons i rest ih =>
    unfold trafoSubstLoop
    split
    · exact offProbeEq_refl _
    · exact offProbeEq_trans (ih _) (offProbe_create_impedance _ _ _ _ _ _)

theorem offProbe_trafo3wSubstLoop (idxs : List Nat) (net : Net) :
    OffProbeEq (trafo3wSubstLoop net idxs).1 net := by
  induction idxs generalizing net with
  | nil => exact offProbeEq_refl _
  | cons i rest ih =>
    unfold trafo3wSubstLoop
    split
    · exact offProbeEq_refl _
    · exact offProbeEq_trans (ih _) (offProbeEq_trans (offProbeEq_trans
        (offProbe_create_impedance _ _ _ _ _ _) (offProbe_create_impedance _ _ _ _ _ _))
        (offProbe_create_impedance _ _ _ _ _ _))

theorem offProbe_impMutateKey (net : Net) (key : String) (idxs : List Nat) :
    OffProbeEq (impMutateKey net key idxs).1 net := by
  unfold impMutateKey
  dsimp only
  have base : ∀ n : Net, OffProbeEq
      (setInServiceFalse
        (if key = "line_dc" then
          { n with line_dc := n.line_dc.map (fun r =>
              { r with length_km := max r.length_km (1/2), r_dc_ohm := max r.r_dc_ohm (1/2) }) }
         else n) key idxs) n := by
    intro n
    refine offProbeEq_trans (offProbe_setInServiceFalse _ _ _) ?_
    split
    · exact ⟨rfl, rfl, rfl, rfl, rfl, rfl⟩
    · exact offProbeEq_refl _
  have base2 : ∀ n : Net, OffProbeEq n net → OffProbeEq
      (setInServiceFalse
        (if key = "line_dc" then
          { n with line_dc := n.line_dc.map (fun r =>
              { r with length_km := max r.length_km (1/2), r_dc_ohm := max r.r_dc_ohm (1/2) }) }
         else n) key idxs) net := fun n h => offProbeEq_trans (base n) h
  have hvsc : OffProbeEq
      (if key = "vsc" then
        { net with vsc := net.vsc.map (fun r =>
            { r with x_ohm := max r.x_ohm (1/2), r_dc_ohm := max r.r_dc_ohm (1/2) }) }
       else net) net := by
    split
    · exact ⟨rfl, rfl, rfl, rfl, rfl, rfl⟩
    · exact offProbeEq_refl _
  split
  · exact offProbeEq_trans (offProbe_replace_xward _ _) (base2 _ hvsc)
  · split
    · exact offProbeEq_trans (offProbe_trafoSubstLoop _ _) (base2 _ hvsc)
    · split
      · exact offProbeEq_trans (offProbe_trafo3wSubstLoop _ _) (base2 _ hvsc)
      · split
        · exact offProbeEq_trans (offProbe_lineSwitchLoop _ _) (base2 _ hvsc)
        · split
          · exact offProbeEq_trans (offProbe_impedanceSwitchLoop _ _) (base2 _ hvsc)
          · exact base2 _ hvsc

theorem offProbe_impMutateAll (d : List (String × List Nat)) (net : Net) :
    OffProbeEq (impMutateAll net d).1 net := by
  induction d generalizing net with
  | nil => exact offProbeEq_refl _
  | cons kv rest ih =>
    unfold impMutateAll
    split
    · next n' heq =>
      have h1 : OffProbeEq n' net := by
        have := offProbe_impMutateKey net kv.1 kv.2
        rw [heq] at this
        exact this
      exact offProbeEq_trans (ih n') h1
    · next n' e heq =>
      have := offProbe_impMutateKey net kv.1 kv.2
      rw [heq] at this
      exact this

/-- Analogue of `overload_net_eq_or_error` for the impedance probe: on every
branch on which control reaches the nine restores at diagnostic.py:672-680,
the final network equals the initial one. -/
theorem implausible_net_eq_or_error (net : Net)
    (min_r_ohm min_x_ohm max_r_ohm max_x_ohm : Rat) (run : Solver) (k : Nat) :
    (implausible_impedance_values net min_r_ohm min_x_ohm max_r_ohm max_x_ohm run k).net = net ∨
      ∃ e, (implausible_impedance_values net min_r_ohm min_x_ohm max_r_ohm max_x_ohm
        run k).result = .error e := by
  unfold implausible_impedance_values
  split
  · left; rfl
  · next d _ =>
    unfold impProbePhase
    dsimp only
    split
    · split
      · left; exact impRestoreTables_eq _ _ (offProbeEq_refl _)
      · split
        · split
          · right; exact ⟨_, rfl⟩
          · next netM heq =>
            have hM : OffProbeEq netM net := by
              have := offProbe_impMutateAll d net
              rw [heq] at this
              exact this
            split
            · left; exact impRestoreTables_eq _ _ hM
            · split
              · left; exact impRestoreTables_eq _ _ hM
              · right; exact ⟨_, rfl⟩
        · left; exact impRestoreTables_eq _ _ (offProbeEq_refl _)
    · left; rfl

/-! ### Concrete fixtures for counterexamples and witnesses -/

/-- An empty standard-type library. -/
def stdTypesEmpty : StdTypes := ⟨[], [], []⟩

/-- A one-bus network with an external grid, one load, one generator and one
static generator, all at scaling 1. -/
def netOv : Net :=
  ⟨[⟨0, 20, true⟩], [], [⟨0, 0, 1, 0, 1, true⟩], [⟨0, 0, 1, 0, 1, true⟩],
   [⟨0, 0, 1, 1, false, true⟩], [⟨0, 0, 1, 0, true⟩], [], [], [], [], [], [], [], [],
   stdTypesEmpty⟩

/-- An injected solver double that raises the expected non-convergence
exception on its first call and an unexpected `RuntimeError` on every later
call. -/
def runC1 : Solver := fun k _ =>
  if k = 0 then .exn .loadflowNotConverged else .exn (.otherError "boom")

/-- An injected solver double that always raises the expected
non-convergence exception. -/
def runExpected : Solver := fun _ _ => .exn .loadflowNotConverged

/-- An injected solver double that always converges. -/
def runOk : Solver := fun _ _ => .ok

/-! ### C1 -/

/-- C1 (amended): each recovery probe leaves every table it may touch equal
to its pre-call state on every exit path on which the probe returns (its
Python control flow reaches the write-backs) — including when the unmodified
first solve raises an exception outside the expected set, which is caught
and logged.  When a perturbed re-solve raises an exception outside the
expected non-convergence exceptions, however, the exception propagates out
of the `except` handler, the write-backs are skipped, and the tables stay
perturbed (see the counterexample). -/
theorem probes_restore_on_normal_return (net : Net) (run : Solver) (k : Nat) :
    (∀ (fac : Rat) (r : Option (List (String × Bool))),
      (overload net fac run k).result = .ok r → (overload net fac run k).net = net) ∧
    (∀ r : Option Bool,
      (wrong_switch_configuration net run k).result = .ok r →
        (wrong_switch_configuration net run k).net = net) ∧
    (∀ (min_r_ohm min_x_ohm max_r_ohm max_x_ohm : Rat) (r : Option (List ImpEntry)),
      (implausible_impedance_values net min_r_ohm min_x_ohm max_r_ohm max_x_ohm
          run k).result = .ok r →
        (implausible_impedance_values net min_r_ohm min_x_ohm max_r_ohm max_x_ohm
          run k).net = net) := by
  refine ⟨fun fac r h => ?_, fun r h => ?_, fun a b c d r h => ?_⟩
  · rcases overload_net_eq_or_error net fac run k with h' | ⟨e, h'⟩
    · exact h'
    · rw [h] at h'; exact absurd h' (by simp)
  · rcases wsc_net_eq_or_error net run k with h' | ⟨e, h'⟩
    · exact h'
    · rw [h] at h'; exact absurd h' (by simp)
  · rcases implausible_net_eq_or_error net a b c d run k with h' | ⟨e, h'⟩
    · exact h'
    · rw [h] at h'; exact absurd h' (by simp)

/-- C1 counterexample: under an injected solver whose first call raises the
expected non-convergence exception and whose second call raises a
`RuntimeError`, the overload probe propagates the exception and leaves the
load scaling column at the perturbation value instead of restoring it. -/
theorem overload_unexpected_resolve_mutates :
    (overload netOv (1/1000) runC1 0).result = .error (.otherError "boom") ∧
    (overload netOv (1/1000) runC1 0).net.load ≠ netOv.load := by
  with_unfolding_all decide

/-- C1 witness: the restore theorem applied to a concrete network and an
always-raising (expected) solver double. -/
theorem probes_restore_on_normal_return_witness :
    (overload netOv (1/1000) runExpected 0).net = netOv :=
  (probes_restore_on_normal_return netOv runExpected 0).1 (1/1000)
    (some [("load", false), ("generation", false)]) (by with_unfolding_all decide)

/-! ### C2 -/

/-- The orchestrator loop distributes over catalog concatenation: the second
part runs from the state the first part left, and findings and errors
concatenate. -/
theorem diagLoop_append (l1 l2 : List (String × DiagCheckFun)) (net : Net) (k : Nat) :
    diagLoop (l1 ++ l2) net k =
      (let s1 := diagLoop l1 net k
       let s2 := diagLoop l2 s1.1 s1.2.1
       (s2.1, s2.2.1, s1.2.2.1 ++ s2.2.2.1, s1.2.2.2 ++ s2.2.2.2)) := by
  induction l1 generalizing net k with
  | nil => simp [diagLoop]
  | cons c rest ih =>
    obtain ⟨name, f⟩ := c
    simp only [List.cons_append, diagLoop]
    cases h : (f net k).result with
    | ok p => cases p <;> simp [h, ih]
    | error e => simp [h, ih]

/-- A one-bus network with an external grid and one line whose `to_bus`
refers to a bus absent from the bus table (the voltage-level check's `.loc`
lookup raises `KeyError` on it). -/
def netMB : Net :=
  ⟨[⟨0, 20, true⟩], [⟨0, 0, 5, 1, 1, 1, 0, 1, 1, true, none⟩], [], [], [],
   [⟨0, 0, 1, 0, true⟩], [], [], [], [], [], [], [], [], stdTypesEmpty⟩

/-- C2: when any check of the fixed catalog raises, the orchestrator records
the exception in the error mapping under that check's name and still invokes
every remaining check of the catalog, from exactly the state the raising
check left behind; no check's failure prevents any other check from running
or from contributing its finding. -/
theorem diagnostic_error_isolated (cfg : DiagConfig) (run : Solver)
    (pre post : List (String × DiagCheckFun)) (name : String) (f : DiagCheckFun)
    (net : Net) (k : Nat) (e : Exc)
    (hcat : diag_functions cfg run = pre ++ (name, f) :: post)
    (hthrow : (f (diagLoop pre net k).1 (diagLoop pre net k).2.1).result = .error e) :
    diagnosticCore net cfg run k =
      (let s1 := diagLoop pre net k
       let out := f s1.1 s1.2.1
       let s2 := diagLoop post out.net out.calls
       (s2.1, s2.2.1, s1.2.2.1 ++ s2.2.2.1,
        s1.2.2.2 ++ (name, e) :: s2.2.2.2)) := by
  unfold diagnosticCore
  rw [hcat, diagLoop_append]
  dsimp only
  conv_lhs => rw [diagLoop]
  rw [hthrow]

/-- C2 witness: on a concrete network the voltage-level check (third catalog
entry) raises `KeyError`; the error is recorded under its name and the
remaining eleven checks still run. -/
theorem diagnostic_error_isolated_witness :
    diagnosticCore netMB {} runOk 0 =
      (let s1 := diagLoop ((diag_functions {} runOk).take 2) netMB 0
       let out := (liftExc (fun net =>
         (different_voltage_levels_connected net).map (·.map .diffVoltage))) s1.1 s1.2.1
       let s2 := diagLoop ((diag_functions {} runOk).drop 3) out.net out.calls
       (s2.1, s2.2.1, s1.2.2.1 ++ s2.2.2.1,
        s1.2.2.2 ++ ("different_voltage_levels_connected",
          Exc.otherError "KeyError") :: s2.2.2.2)) :=
  diagnostic_error_isolated {} runOk ((diag_functions {} runOk).take 2)
    ((diag_functions {} runOk).drop 3) "different_voltage_levels_connected"
    (liftExc (fun net => (different_voltage_levels_connected net).map (·.map .diffVoltage)))
    netMB 0 (Exc.otherError "KeyError") (by with_unfolding_all rfl) (by with_unfolding_all decide)

/-! ### C3 -/

/-- A two-bus network with one in-service line whose total resistance
`r_ohm_per_km * length_km = 1/10` sits exactly at a configured minimum of
`min_r_ohm = 1/10`, with reactance strictly inside the window. -/
def netC3 : Net :=
  ⟨[⟨0, 20, true⟩, ⟨1, 20, true⟩], [⟨0, 0, 1, 1, 1/10, 1, 0, 1, 1, true, none⟩],
   [], [], [], [⟨0, 0, 1, 0, true⟩], [], [], [], [], [], [], [], [], stdTypesEmpty⟩

/-- C3 counterexample: a line whose total resistance is exactly the
configured minimum IS flagged (the filter uses `<=`), contradicting the
claim that the boundary itself is not flagged. -/
theorem impedance_flags_resistance_at_exact_minimum :
    netC3.line.map (fun l => l.r_ohm_per_km * l.length_km) = [1/10] ∧
    (implausible_impedance_values netC3 (1/10) (1/1000) 100 100 runOk 0).result =
      .ok (some [ImpEntry.elems [("line", [0])]]) := by
  with_unfolding_all decide

/-- C3 (amended): the plausibility window is boundary-inclusive on both
sides: an in-service line whose total resistance is less than OR EQUAL to
the configured minimum is flagged (so also one unit of precision below it),
while a line strictly inside the window on all four derived quantities is
not flagged. -/
theorem implausible_line_boundary (net : Net)
    (min_r_ohm min_x_ohm max_r_ohm max_x_ohm : Rat) (l : LineRow)
    (hl : l ∈ net.line) (hin : l.in_service = true) :
    (l.r_ohm_per_km * l.length_km ≤ min_r_ohm →
      l.idx ∈ impLineFilter net min_r_ohm min_x_ohm max_r_ohm max_x_ohm) ∧
    ((∀ l' ∈ net.line, l'.idx = l.idx → l' = l) →
      min_r_ohm < l.r_ohm_per_km * l.length_km →
      l.r_ohm_per_km * l.length_km < max_r_ohm →
      min_x_ohm < l.x_ohm_per_km * l.length_km →
      l.x_ohm_per_km * l.length_km < max_x_ohm →
      l.idx ∉ impLineFilter net min_r_ohm min_x_ohm max_r_ohm max_x_ohm) := by
  constructor
  · intro hr
    unfold impLineFilter
    exact List.mem_map.mpr ⟨l, List.mem_filter.mpr ⟨hl, by simp [hin, hr]⟩, rfl⟩
  · intro huniq h1 h2 h3 h4 hmem
    unfold impLineFilter at hmem
    obtain ⟨l', hl', hidx⟩ := List.mem_map.mp hmem
    have hfl := List.mem_filter.mp hl'
    have : l' = l := huniq l' hfl.1 hidx
    subst this
    have := hfl.2
    simp only [decide_eq_true_eq] at this
    rcases this.1 with h | h | h | h
    · exact absurd h (by linarith)
    · exact absurd h (by linarith)
    · exact absurd h (by linarith)
    · exact absurd h (by linarith)

/-- C3 witness: the amended boundary theorem applied to the concrete
boundary network. -/
theorem implausible_line_boundary_witness :
    (0 : Nat) ∈ impLineFilter netC3 (1/10) (1/1000) 100 100 :=
  (implausible_line_boundary netC3 (1/10) (1/1000) 100 100
      ⟨0, 0, 1, 1, 1/10, 1, 0, 1, 1, true, none⟩
      (by with_unfolding_all decide) rfl).1 (by with_unfolding_all decide)

/-! ### C4 -/

/-- An injected solver double whose first call raises the expected
non-convergence exception and whose later calls converge. -/
def runLoadStep : Solver := fun k _ =>
  if k = 0 then .exn .loadflowNotConverged else .ok

/-- C4: when the unmodified solve raises an expected non-convergence
exception and the solve with all load scaling set to the configured factor
converges, `overload` makes exactly two solver calls (so the
generation-scaling and combined steps are never attempted), reports
`load: True, generation: False`, and hands back the network with all three
scaling columns restored exactly. -/
theorem overload_load_step_converges (net : Net) (fac : Rat) (run : Solver)
    (k : Nat) (e : Exc) (h0 : run k net = .exn e) (he : e.isExpected = true)
    (h1 : run (k + 1) { net with load := setScalingAll net.load fac } = .ok) :
    overload net fac run k =
      ⟨net, k + 2, .ok (some [("load", true), ("generation", false)])⟩ := by
  unfold overload
  dsimp only
  rw [h0]
  have hdict : dictSet (dictSet (dictSet [] "load" false) "generation" false) "load" true =
      [("load", true), ("generation", false)] := by decide
  simp [he, h1, hdict, setScalingCol_setScalingAll, setScalingCol_self, setGenScalingCol_self]

/-- C4 witness: the load-step theorem applied to a concrete network and the
two-step solver double. -/
theorem overload_load_step_converges_witness :
    overload netOv (1/1000) runLoadStep 0 =
      ⟨netOv, 2, .ok (some [("load", true), ("generation", false)])⟩ :=
  overload_load_step_converges netOv (1/1000) runLoadStep 0 .loadflowNotConverged
    (by with_unfolding_all decide) (by decide) (by with_unfolding_all decide)

/-! ### C5 -/

/-- Python-dict lookup distributes over concatenation, first hit wins. -/
theorem dictGet_append {α : Type} (a b : List (String × α)) (k : String) :
    dictGet (a ++ b) k =
      (match dictGet a k with | some v => some v | none => dictGet b k) := by
  induction a with
  | nil => simp [dictGet]
  | cons kv rest ih =>
    by_cases h : kv.1 = k
    · simp [dictGet, h]
    · simpa [dictGet, h] using ih

/-- A two-bus network whose only implausible element is a 2-winding
transformer (its short-circuit reactance referred to the hv side is 4000 ohm,
far above `max_x_ohm`); no line, series impedance or extended ward
qualifies. -/
def netC5 : Net :=
  ⟨[⟨0, 20, true⟩, ⟨1, 20, true⟩], [], [], [], [], [⟨0, 0, 1, 0, true⟩], [],
   [⟨0, 0, 1, 1, 20, 1, 1000, 1, 0, 0, true, none⟩], [], [], [], [], [], [],
   stdTypesEmpty⟩

/-- C5 counterexample: with only a transformer qualifying and a solver that
never converges, `implausible_impedance_values` returns only the detection
dictionary — the recoverability probe is not attempted (zero solver calls)
and no `loadflow_converges_with_switch_replacement` entry is appended. -/
theorem implausible_trafo_only_skips_probe :
    impTrafoFilter netC5 (1/1000) 100 = [0] ∧
    implausible_impedance_values netC5 (1/1000) (1/1000) 100 100 runExpected 0 =
      ⟨netC5, 0, .ok (some [ImpEntry.elems [("trafo", [0])]])⟩ := by
  with_unfolding_all decide

/-- C5 (amended): the recoverability probe is gated on the element kind: it
is attempted only when an implausible line, series impedance or extended
ward exists.  When none of those three kinds qualifies — whatever other
kinds do — the solver is never invoked, the network is untouched, and the
returned finding carries no recoverability entry. -/
theorem implausible_probe_gated (net : Net)
    (min_r_ohm min_x_ohm max_r_ohm max_x_ohm : Rat) (run : Solver) (k : Nat)
    (hline : impLineFilter net min_r_ohm min_x_ohm max_r_ohm max_x_ohm = [])
    (himp : impImpedanceFilter net min_r_ohm min_x_ohm max_r_ohm max_x_ohm = .ok [])
    (hxw : impXwardFilter net min_r_ohm min_x_ohm max_r_ohm max_x_ohm = []) :
    (implausible_impedance_values net min_r_ohm min_x_ohm max_r_ohm max_x_ohm
        run k).net = net ∧
    (implausible_impedance_values net min_r_ohm min_x_ohm max_r_ohm max_x_ohm
        run k).calls = k ∧
    (∀ (l : List ImpEntry) (b : Bool),
      (implausible_impedance_values net min_r_ohm min_x_ohm max_r_ohm max_x_ohm
          run k).result = .ok (some l) → ImpEntry.switchRepl b ∉ l) := by
  unfold implausible_impedance_values impDetect
  rw [himp]
  dsimp only
  rw [hline, hxw]
  simp only [ne_eq, not_true_eq_false, if_false, List.nil_append, if_neg]
  set d := ((if impTrafoFilter net min_x_ohm max_x_ohm ≠ [] then
      [("trafo", impTrafoFilter net min_x_ohm max_x_ohm)] else []) ++
    (if impTrafo3wFilter net min_x_ohm max_x_ohm ≠ [] then
      [("trafo3w", impTrafo3wFilter net min_x_ohm max_x_ohm)] else []) ++
    (if impVscFilter net min_r_ohm min_x_ohm ≠ [] then
      [("vsc", impVscFilter net min_r_ohm min_x_ohm)] else []) ++
    (if impLineDcFilter net min_r_ohm ≠ [] then
      [("line_dc", impLineDcFilter net min_r_ohm)] else [])) with hd
  have hno : ∀ key, key = "line" ∨ key = "impedance" ∨ key = "xward" →
      dictHas d key = false := by
    intro key hkey
    have hkt : key ≠ "trafo" ∧ key ≠ "trafo3w" ∧ key ≠ "vsc" ∧ key ≠ "line_dc" := by
      rcases hkey with h | h | h <;> subst h <;> exact ⟨by decide, by decide, by decide, by decide⟩
    obtain ⟨k1, k2, k3, k4⟩ := hkt
    have g1 : dictGet (if impTrafoFilter net min_x_ohm max_x_ohm ≠ [] then
        [("trafo", impTrafoFilter net min_x_ohm max_x_ohm)] else []) key = none := by
      split <;> simp [dictGet, Ne.symm k1]
    have g2 : dictGet (if impTrafo3wFilter net min_x_ohm max_x_ohm ≠ [] then
        [("trafo3w", impTrafo3wFilter net min_x_ohm max_x_ohm)] else []) key = none := by
      split <;> simp [dictGet, Ne.symm k2]
    have g3 : dictGet (if impVscFilter net min_r_ohm min_x_ohm ≠ [] then
        [("vsc", impVscFilter net min_r_ohm min_x_ohm)] else []) key = none := by
      split <;> simp [dictGet, Ne.symm k3]
    have g4 : dictGet (if impLineDcFilter net min_r_ohm ≠ [] then
        [("line_dc", impLineDcFilter net min_r_ohm)] else []) key = none := by
      split <;> simp [dictGet, Ne.symm k4]
    unfold dictHas
    rw [hd]
    rw [dictGet_append, dictGet_append, dictGet_append, g1, g2, g3, g4]
    rfl
  unfold impProbePhase
  dsimp only
  rw [hno "line" (Or.inl rfl), hno "impedance" (Or.inr (Or.inl rfl)),
    hno "xward" (Or.inr (Or.inr rfl))]
  simp only [Bool.false_eq_true, false_or, if_false]
  refine ⟨trivial, trivial, fun l b hres => ?_⟩
  by_cases hde : d = []
  · simp [hde] at hres
  · simp [hde] at hres
    subst hres
    simp

/-- C5 witness: the gating theorem applied to the transformer-only network
with a never-converging solver. -/
theorem implausible_probe_gated_witness :
    (implausible_impedance_values netC5 (1/1000) (1/1000) 100 100 runExpected 0).calls = 0 :=
  (implausible_probe_gated netC5 (1/1000) (1/1000) 100 100 runExpected 0
    (by with_unfolding_all decide) (by with_unfolding_all decide)
    (by with_unfolding_all decide)).2.1

/-! ### C6 -/

/-- C6 counterexample: on a concrete network the pipeline's error mapping is
non-empty (the voltage-level check raised `KeyError`), yet the entry point's
return value is only the findings mapping — the error mapping is not part of
it (and with `return_result_dict=False` nothing is returned at all). -/
theorem diagnostic_drops_error_mapping :
    (diagnosticCore netMB {} runOk 0).2.2.2 =
      [("different_voltage_levels_connected", Exc.otherError "KeyError")] ∧
    diagnostic netMB {} runOk 0 true =
      (netMB, 4, some [("missing_bus_indices",
        Payload.missingBus [("line", [(0, "to_bus", 5)])])]) ∧
    (diagnostic netMB {} runOk 0 false).2.2 = none := by
  with_unfolding_all decide

/-- C6 (amended): the entry point returns the findings mapping only — the
full `diag_results` when `return_result_dict` is true and nothing otherwise;
the error mapping computed by the orchestrator is handed to the external
report renderer but never returned to the caller. -/
theorem diagnostic_returns_findings_only (net : Net) (cfg : DiagConfig)
    (run : Solver) (k : Nat) :
    diagnostic net cfg run k true =
      ((diagnosticCore net cfg run k).1, (diagnosticCore net cfg run k).2.1,
        some (diagnosticCore net cfg run k).2.2.1) ∧
    diagnostic net cfg run k false =
      ((diagnosticCore net cfg run k).1, (diagnosticCore net cfg run k).2.1, none) := by
  rcases hcore : diagnosticCore net cfg run k with ⟨n', k', rs, es⟩
  unfold diagnostic
  rw [hcore]
  simp

/-! ### C7 -/

/-- Membership in a conditional singleton block forces the pair. -/
theorem mem_condBlock {α : Type} {p : String × α} {c : Prop} [Decidable c]
    {key : String} {v : α} (h : p ∈ (if c then [(key, v)] else [])) : p = (key, v) := by
  split at h
  · simpa using h
  · simp at h

/-- C7: `missing_bus_indices` flags a switch whose `bus` reference is absent
from the bus index, and does not produce an `element` entry for a switch
whose element-type tag is "l", "t" or "t3", however absent that element
identifier may be — from the bus table (hypothesis) and from the line or
transformer tables (which the check never consults; the statement quantifies
over all networks, including those whose element tables lack the id). -/
theorem missing_bus_switch_exemption (net : Net) (s : SwitchRow)
    (hs : s ∈ net.switch) :
    (mbiBusMem net s.bus = false →
      ∃ d, missing_bus_indices net = some d ∧
        ∃ lst, ("switch", lst) ∈ d ∧ (s.idx, "bus", s.bus) ∈ lst) ∧
    ((s.et = "l" ∨ s.et = "t" ∨ s.et = "t3") →
      (∀ s' ∈ net.switch, s'.idx = s.idx → s' = s) →
      ∀ d lst, missing_bus_indices net = some d → ("switch", lst) ∈ d →
        (s.idx, "element", s.element) ∉ lst) := by
  constructor
  · intro hbus
    have hmem : (s.idx, "bus", s.bus) ∈ mbiSwitchCheck net := by
      unfold mbiSwitchCheck
      refine List.mem_flatMap.mpr ⟨s, hs, ?_⟩
      rw [hbus]
      simp
    have hne : mbiSwitchCheck net ≠ [] := List.ne_nil_of_mem hmem
    have hswin : ("switch", mbiSwitchCheck net) ∈ mbiCheckResults net := by
      unfold mbiCheckResults
      simp only [List.mem_append]
      exact Or.inl (Or.inr (by simp [hne]))
    have hcr : mbiCheckResults net ≠ [] := List.ne_nil_of_mem hswin
    exact ⟨mbiCheckResults net, by unfold missing_bus_indices; rw [if_pos hcr],
      mbiSwitchCheck net, hswin, hmem⟩
  · intro het huniq d lst hd hin htrip
    unfold missing_bus_indices at hd
    split at hd
    · injection hd with hd
      subst hd
      have hswitch : lst = mbiSwitchCheck net := by
        unfold mbiCheckResults at hin
        simp only [List.mem_append] at hin
        rcases hin with ((((((h | h) | h) | h) | h) | h) | h) | h
        · exact absurd (Prod.ext_iff.mp (mem_condBlock h)).1
            (by decide : ("switch" : String) ≠ "ext_grid")
        · exact absurd (Prod.ext_iff.mp (mem_condBlock h)).1
            (by decide : ("switch" : String) ≠ "load")
        · exact absurd (Prod.ext_iff.mp (mem_condBlock h)).1
            (by decide : ("switch" : String) ≠ "gen")
        · exact absurd (Prod.ext_iff.mp (mem_condBlock h)).1
            (by decide : ("switch" : String) ≠ "sgen")
        · exact absurd (Prod.ext_iff.mp (mem_condBlock h)).1
            (by decide : ("switch" : String) ≠ "trafo")
        · exact absurd (Prod.ext_iff.mp (mem_condBlock h)).1
            (by decide : ("switch" : String) ≠ "trafo3w")
        · exact (Prod.ext_iff.mp (mem_condBlock h)).2
        · exact absurd (Prod.ext_iff.mp (mem_condBlock h)).1
            (by decide : ("switch" : String) ≠ "line")
      subst hswitch
      unfold mbiSwitchCheck at htrip
      obtain ⟨s', hs', htrip'⟩ := List.mem_flatMap.mp htrip
      simp only [List.mem_append] at htrip'
      rcases htrip' with h | h
      · split at h
        · exact absurd h (List.not_mem_nil _)
        · simp only [List.mem_singleton, Prod.mk.injEq] at h
          exact absurd h.2.1 (by decide)
      · split at h
        · exact absurd h (List.not_mem_nil _)
        · next hcond =>
          simp only [List.mem_singleton, Prod.mk.injEq] at h
          have hseq : s' = s := huniq s' hs' h.1.symm
          subst hseq
          apply hcond
          rcases het with he | he | he <;> simp [he]
    · cases hd

/-- A network with two switches: switch 0 references a bus absent from the
bus table; switch 1 targets an absent line id under element-type tag "l". -/
def netC7 : Net :=
  ⟨[⟨0, 20, true⟩], [], [], [], [], [⟨0, 0, 1, 0, true⟩],
   [⟨0, 7, 0, "b", true⟩, ⟨1, 0, 9, "l", false⟩], [], [], [], [], [], [], [],
   stdTypesEmpty⟩

/-- C7 witness: the exemption theorem applied to the concrete network, both
directions. -/
theorem missing_bus_switch_exemption_witness :
    (∃ d, missing_bus_indices netC7 = some d ∧
      ∃ lst, ("switch", lst) ∈ d ∧ ((0 : Nat), "bus", (7 : Nat)) ∈ lst) ∧
    (∀ d lst, missing_bus_indices netC7 = some d → ("switch", lst) ∈ d →
      ((1 : Nat), "element", (9 : Nat)) ∉ lst) :=
  ⟨(missing_bus_switch_exemption netC7 ⟨0, 7, 0, "b", true⟩
      (by with_unfolding_all decide)).1 (by with_unfolding_all decide),
   (missing_bus_switch_exemption netC7 ⟨1, 0, 9, "l", false⟩
      (by with_unfolding_all decide)).2 (Or.inl rfl)
      (by with_unfolding_all decide)⟩

/-! ### C8 -/

/-- A network whose only transformer is the in-service 3-winding transformer
with index 5, referenced by three open transformer-type switches; the
2-winding transformer table is empty, and every bus is tied to an in-service
external grid (so the island scan reports nothing). -/
def netC8 : Net :=
  ⟨[⟨0, 20, true⟩], [], [], [], [], [⟨0, 0, 1, 0, true⟩],
   [⟨0, 0, 5, "t", false⟩, ⟨1, 0, 5, "t", false⟩, ⟨2, 0, 5, "t", false⟩], [],
   [⟨5, 0, 0, 0, 1, 1, 1, 20, 20, 20, 1, 1, 1, 0, 0, 0, 0, 0, true, none⟩],
   [], [], [], [], [], stdTypesEmpty⟩

/-- C8 (code bug): the 3-winding transformer 5 is in service in `net.trafo3w`
and referenced by three (more than two) open transformer-type switches, so
per the claim it should be reported isolated; the code instead intersects
the candidate set with the in-service index of `net.trafo` — the 2-winding
table (diagnostic.py:886), here empty — and reports nothing. -/
theorem isolated_trafo3w_uses_trafo_table :
    netC8.trafo3w.map (fun t => (t.idx, t.in_service)) = [(5, true)] ∧
    netC8.switch.countP (fun s => s.et = "t" ∧ s.closed = false ∧ s.element = 5) = 3 ∧
    netC8.trafo = [] ∧
    disconnected_elements netC8 = none := by
  with_unfolding_all decide

/-! ### C10 -/

/-- C10: `overload` returns `None` when the unmodified solve converges and
when it raises a non-expected exception; whenever it returns a dictionary,
that dictionary is exactly `load` then `generation`, both booleans — in
particular `generation` is present (as `False`) when only load scaling was
tested, and `load` is present when only generation scaling succeeded. -/
theorem overload_result_shape (net : Net) (fac : Rat) (run : Solver) (k : Nat) :
    (run k net = .ok → (overload net fac run k).result = .ok none) ∧
    (∀ e, run k net = .exn e → e.isExpected = false →
      (overload net fac run k).result = .ok none) ∧
    (∀ d, (overload net fac run k).result = .ok (some d) →
      d = [("load", false), ("generation", false)] ∨
      d = [("load", true), ("generation", false)] ∨
      d = [("load", false), ("generation", true)] ∨
      d = [("load", true), ("generation", true)]) := by
  refine ⟨?_, ?_, ?_⟩
  · intro h
    unfold overload
    dsimp only
    rw [h]
  · intro e h he
    unfold overload
    dsimp only
    rw [h]
    simp [he]
  · intro d h
    unfold overload at h
    dsimp only at h
    split at h
    · simp at h
    · split at h
      · split at h
        · simp at h
          subst h
          right; left; decide
        · split at h
          · split at h
            · simp at h
              subst h
              right; right; left; decide
            · split at h
              · split at h
                · simp at h
                  subst h
                  right; right; right; decide
                · split at h
                  · simp at h
                    subst h
                    left; decide
                  · simp at h
              · simp at h
          · simp at h
      · simp at h

/-- C10 witness: the result-shape theorem applied to a network under a
solver that never converges, where only the initial `load: False,
generation: False` record survives. -/
theorem overload_result_shape_witness :
    [("load", false), ("generation", false)] =
        [(("load" : String), false), ("generation", false)] ∨
      [(("load" : String), false), ("generation", false)] =
        [("load", true), ("generation", false)] ∨
      [(("load" : String), false), ("generation", false)] =
        [("load", false), ("generation", true)] ∨
      [(("load" : String), false), ("generation", false)] =
        [("load", true), ("generation", true)] :=
  (overload_result_shape netOv (1/1000) runExpected 0).2.2
    [("load", false), ("generation", false)] (by with_unfolding_all decide)

/-! ### C9: counter-independence of each check under a stateless solver

A deterministic injected solver is one that factors through the network,
`run := fun _ n => g n`.  Under such a solver the network a check hands back
and the result it produces do not depend on the solver-call counter. -/

theorem overload_shift (g : Net → SolveOutcome) (net : Net) (fac : Rat) (k k' : Nat) :
    (overload net fac (fun _ => g) k).net = (overload net fac (fun _ => g) k').net ∧
    (overload net fac (fun _ => g) k).result = (overload net fac (fun _ => g) k').result := by
  unfold overload
  dsimp only
  split
  · next heq0 => simp [heq0]
  · next e0 heq0 =>
    split
    · next hexp0 =>
      split
      · next heq1 => simp [heq0, heq1, hexp0]
      · next e1 heq1 =>
        split
        · next hexp1 =>
          split
          · next heq2 => simp [heq0, heq1, heq2, hexp0, hexp1]
          · next e2 heq2 =>
            split
            · next hexp2 =>
              split
              · next heq3 => simp [heq0, heq1, heq2, heq3, hexp0, hexp1, hexp2]
              · next e3 heq3 =>
                split
                · next hexp3 =>
                  simp [heq0, heq1, heq2, heq3, hexp0, hexp1, hexp2, hexp3]
                · next hexp3 =>
                  simp [heq0, heq1, heq2, heq3, hexp0, hexp1, hexp2, hexp3]
            · next hexp2 => simp [heq0, heq1, heq2, hexp0, hexp1, hexp2]
        · next hexp1 => simp [heq0, heq1, hexp0, hexp1]
    · next hexp0 => simp [heq0, hexp0]

theorem wsc_shift (g : Net → SolveOutcome) (net : Net) (k k' : Nat) :
    (wrong_switch_configuration net (fun _ => g) k).net =
      (wrong_switch_configuration net (fun _ => g) k').net ∧
    (wrong_switch_configuration net (fun _ => g) k).result =
      (wrong_switch_configuration net (fun _ => g) k').result := by
  unfold wrong_switch_configuration
  dsimp only
  split
  · next heq0 => simp [heq0]
  · next e0 heq0 =>
    split
    · next hexp0 =>
      split
      · next heq1 => simp [heq0, heq1, hexp0]
      · next e1 heq1 =>
        split
        · next hexp1 => simp [heq0, heq1, hexp0, hexp1]
        · next hexp1 => simp [heq0, heq1, hexp0, hexp1]
    · next hexp0 => simp [heq0, hexp0]

theorem implausible_shift (g : Net → SolveOutcome) (net : Net)
    (min_r_ohm min_x_ohm max_r_ohm max_x_ohm : Rat) (k k' : Nat) :
    (implausible_impedance_values net min_r_ohm min_x_ohm max_r_ohm max_x_ohm
      (fun _ => g) k).net =
      (implausible_impedance_values net min_r_ohm min_x_ohm max_r_ohm max_x_ohm
        (fun _ => g) k').net ∧
    (implausible_impedance_values net min_r_ohm min_x_ohm max_r_ohm max_x_ohm
      (fun _ => g) k).result =
      (implausible_impedance_values net min_r_ohm min_x_ohm max_r_ohm max_x_ohm
        (fun _ => g) k').result := by
  unfold implausible_impedance_values
  split
  · simp
  · next d hdet =>
    unfold impProbePhase
    dsimp only
    split
    · next hgate =>
      split
      · next heq0 => simp [heq0]
      · next e0 heq0 =>
        split
        · next hexp0 =>
          split
          · next netM e heqM => simp [heq0, hexp0, heqM]
          · next netM heqM =>
            split
            · next heq1 => simp [heq0, hexp0, heqM, heq1]
            · next e1 heq1 =>
              split
              · next hexp1 => simp [heq0, hexp0, heqM, heq1, hexp1]
              · next hexp1 => simp [heq0, hexp0, heqM, heq1, hexp1]
        · next hexp0 => simp [heq0, hexp0]
    · next hgate => simp

theorem numba_shift (g : Net → SolveOutcome) (net : Net) (tol : Rat) (k k' : Nat) :
    (numba_comparison net tol (fun _ => g) k).net =
      (numba_comparison net tol (fun _ => g) k').net ∧
    (numba_comparison net tol (fun _ => g) k).result =
      (numba_comparison net tol (fun _ => g) k').result := by
  unfold numba_comparison
  dsimp only
  split
  · next e0 heq0 => simp [heq0]
  · next heq0 =>
    split
    · next e1 heq1 => simp [heq0, heq1]
    · next heq1 => simp [heq0, heq1]

/-! ### C9: every check hands the network back unchanged when the stateless
solver raises only expected non-convergence exceptions -/

/-- Shorthand for the solver hypothesis of the amended idempotence claim:
every call either converges or raises an expected non-convergence
exception. -/
def ExpectedOnly (g : Net → SolveOutcome) : Prop :=
  ∀ n, g n = .ok ∨ ∃ e, g n = .exn e ∧ e.isExpected = true

theorem ExpectedOnly.not_unexpected {g : Net → SolveOutcome} (Hg : ExpectedOnly g)
    {n : Net} {e : Exc} (h : g n = .exn e) : e.isExpected = true := by
  rcases Hg n with h0 | ⟨e', h1, h2⟩
  · rw [h] at h0; cases h0
  · rw [h] at h1
    injection h1 with h1
    rw [h1]
    exact h2

theorem overload_preserves (g : Net → SolveOutcome) (Hg : ExpectedOnly g)
    (net : Net) (fac : Rat) (k : Nat) :
    (overload net fac (fun _ => g) k).net = net := by
  rcases overload_net_eq_or_error net fac (fun _ => g) k with h | ⟨e, h⟩
  · exact h
  · exfalso
    revert h
    unfold overload
    dsimp only
    split
    · simp
    · next e0 heq0 =>
      rw [if_pos (Hg.not_unexpected heq0)]
      split
      · simp
      · next e1 heq1 =>
        rw [if_pos (Hg.not_unexpected heq1)]
        split
        · simp
        · next e2 heq2 =>
          rw [if_pos (Hg.not_unexpected heq2)]
          split
          · simp
          · next e3 heq3 =>
            rw [if_pos (Hg.not_unexpected heq3)]
            simp

theorem wsc_preserves (g : Net → SolveOutcome) (Hg : ExpectedOnly g)
    (net : Net) (k : Nat) :
    (wrong_switch_configuration net (fun _ => g) k).net = net := by
  rcases wsc_net_eq_or_error net (fun _ => g) k with h | ⟨e, h⟩
  · exact h
  · exfalso
    revert h
    unfold wrong_switch_configuration
    dsimp only
    split
    · simp
    · next e0 heq0 =>
      rw [if_pos (Hg.not_unexpected heq0)]
      split
      · simp
      · next e1 heq1 =>
        rw [if_pos (Hg.not_unexpected heq1)]
        simp

theorem numba_preserves (net : Net) (tol : Rat) (run : Solver) (k : Nat) :
    (numba_comparison net tol run k).net = net := by
  unfold numba_comparison
  split
  · rfl
  · split <;> rfl

/-! ### C9: the impedance probe's substitution loop cannot raise when no
converter or DC line qualifies

Presence of the selected row indices in their tables is what keeps the
`.at`/`.loc` lookups of the substitution loop from raising; the loop's own
writes never remove a row from the four tables it looks up. -/

/-- Index-presence monotonicity between two networks, for the four tables
the substitution loop looks rows up in. -/
def PresMono (a b : Net) : Prop :=
  (∀ i, (∃ r ∈ a.line, r.idx = i) → ∃ r ∈ b.line, r.idx = i) ∧
  (∀ i, (∃ r ∈ a.impedance, r.idx = i) → ∃ r ∈ b.impedance, r.idx = i) ∧
  (∀ i, (∃ r ∈ a.trafo, r.idx = i) → ∃ r ∈ b.trafo, r.idx = i) ∧
  (∀ i, (∃ r ∈ a.trafo3w, r.idx = i) → ∃ r ∈ b.trafo3w, r.idx = i)

theorem presMono_refl (n : Net) : PresMono n n :=
  ⟨fun _ h => h, fun _ h => h, fun _ h => h, fun _ h => h⟩

theorem presMono_trans {a b c : Net} (h1 : PresMono a b) (h2 : PresMono b c) :
    PresMono a c :=
  ⟨fun i h => h2.1 i (h1.1 i h), fun i h => h2.2.1 i (h1.2.1 i h),
   fun i h => h2.2.2.1 i (h1.2.2.1 i h), fun i h => h2.2.2.2 i (h1.2.2.2 i h)⟩

/-- A map that keeps row indices keeps presence. -/
theorem presence_map {R : Type} (t : List R) (gi : R → Nat) (f : R → R)
    (hf : ∀ r, gi (f r) = gi r) (i : Nat) (h : ∃ r ∈ t, gi r = i) :
    ∃ r ∈ t.map f, gi r = i := by
  obtain ⟨r, hr, hi⟩ := h
  exact ⟨f r, List.mem_map_of_mem f hr, (hf r).trans hi⟩

theorem presMono_setInServiceFalse (net : Net) (key : String) (idxs : List Nat) :
    PresMono net (setInServiceFalse net key idxs) := by
  unfold setInServiceFalse
  repeat' split
  all_goals refine ⟨fun i h => ?_, fun i h => ?_, fun i h => ?_, fun i h => ?_⟩
  all_goals first
    | exact h
    | exact presence_map _ _ _ (fun r => by split <;> rfl) i h

theorem presMono_create_switch (net : Net) (b e : Nat) :
    PresMono net (create_switch net b e) := presMono_refl net

theorem presMono_create_impedance (net : Net) (f t : Nat) (r x s : Rat) :
    PresMono net (create_impedance net f t r x s) := by
  refine ⟨fun i h => h, fun i h => ?_, fun i h => h, fun i h => h⟩
  obtain ⟨r', hr', hi⟩ := h
  exact ⟨r', List.mem_append_left _ hr', hi⟩

theorem presMono_replace_xward (net : Net) (idxs : List Nat) :
    PresMono net (replace_xward_by_ward net idxs) := presMono_refl net

theorem lineSwitchLoop_ok (idxs : List Nat) (net : Net)
    (h : ∀ i ∈ idxs, ∃ r ∈ net.line, r.idx = i) :
    (lineSwitchLoop net idxs).2 = none ∧ PresMono net (lineSwitchLoop net idxs).1 := by
  induction idxs generalizing net with
  | nil => exact ⟨rfl, presMono_refl net⟩
  | cons i rest ih =>
    unfold lineSwitchLoop
    split
    · next hnone =>
      exfalso
      obtain ⟨r, hr, hri⟩ := h i (List.mem_cons_self _ _)
      have := List.find?_eq_none.mp hnone r hr
      simp [hri] at this
    · next l' hsome =>
      have hrest : ∀ j ∈ rest, ∃ r ∈ (create_switch net l'.from_bus l'.to_bus).line, r.idx = j :=
        fun j hj => h j (List.mem_cons_of_mem _ hj)
      obtain ⟨h1, h2⟩ := ih (create_switch net l'.from_bus l'.to_bus) hrest
      exact ⟨h1, presMono_trans (presMono_create_switch net l'.from_bus l'.to_bus) h2⟩

theorem impedanceSwitchLoop_ok (idxs : List Nat) (net : Net)
    (h : ∀ i ∈ idxs, ∃ r ∈ net.impedance, r.idx = i) :
    (impedanceSwitchLoop net idxs).2 = none ∧
      PresMono net (impedanceSwitchLoop net idxs).1 := by
  induction idxs generalizing net with
  | nil => exact ⟨rfl, presMono_refl net⟩
  | cons i rest ih =>
    unfold impedanceSwitchLoop
    split
    · next hnone =>
      exfalso
      obtain ⟨r, hr, hri⟩ := h i (List.mem_cons_self _ _)
      have := List.find?_eq_none.mp hnone r hr
      simp [hri] at this
    · next l' hsome =>
      have hrest : ∀ j ∈ rest,
          ∃ r ∈ (create_switch net l'.from_bus l'.to_bus).impedance, r.idx = j :=
        fun j hj => h j (List.mem_cons_of_mem _ hj)
      obtain ⟨h1, h2⟩ := ih (create_switch net l'.from_bus l'.to_bus) hrest
      exact ⟨h1, presMono_trans (presMono_create_switch net l'.from_bus l'.to_bus) h2⟩

theorem trafoSubstLoop_ok (idxs : List Nat) (net : Net)
    (h : ∀ i ∈ idxs, ∃ r ∈ net.trafo, r.idx = i) :
    (trafoSubstLoop net idxs).2 = none ∧ PresMono net (trafoSubstLoop net idxs).1 := by
  induction idxs generalizing net with
  | nil => exact ⟨rfl, presMono_refl net⟩
  | cons i rest ih =>
    unfold trafoSubstLoop
    split
    · next hnone =>
      exfalso
      obtain ⟨r, hr, hri⟩ := h i (List.mem_cons_self _ _)
      have := List.find?_eq_none.mp hnone r hr
      simp [hri] at this
    · next t' hsome =>
      have hmono := presMono_create_impedance net t'.hv_bus t'.lv_bus 0 (1/100) 100
      have hrest : ∀ j ∈ rest,
          ∃ r ∈ (create_impedance net t'.hv_bus t'.lv_bus 0 (1/100) 100).trafo, r.idx = j :=
        fun j hj => hmono.2.2.1 j (h j (List.mem_cons_of_mem _ hj))
      obtain ⟨h1, h2⟩ := ih _ hrest
      exact ⟨h1, presMono_trans hmono h2⟩

theorem trafo3wSubstLoop_ok (idxs : List Nat) (net : Net)
    (h : ∀ i ∈ idxs, ∃ r ∈ net.trafo3w, r.idx = i) :
    (trafo3wSubstLoop net idxs).2 = none ∧
      PresMono net (trafo3wSubstLoop net idxs).1 := by
  induction idxs generalizing net with
  | nil => exact ⟨rfl, presMono_refl net⟩
  | cons i rest ih =>
    unfold trafo3wSubstLoop
    split
    · next hnone =>
      exfalso
      obtain ⟨r, hr, hri⟩ := h i (List.mem_cons_self _ _)
      have := List.find?_eq_none.mp hnone r hr
      simp [hri] at this
    · next t' hsome =>
      have hm1 := presMono_create_impedance net t'.hv_bus t'.mv_bus 0 (1/100) 100
      have hm2 := presMono_create_impedance
        (create_impedance net t'.hv_bus t'.mv_bus 0 (1/100) 100) t'.mv_bus t'.lv_bus 0 (1/100) 100
      have hm3 := presMono_create_impedance
        (create_impedance (create_impedance net t'.hv_bus t'.mv_bus 0 (1/100) 100)
          t'.mv_bus t'.lv_bus 0 (1/100) 100) t'.hv_bus t'.lv_bus 0 (1/100) 100
      have hmono := presMono_trans (presMono_trans hm1 hm2) hm3
      have hrest : ∀ j ∈ rest, ∃ r ∈ (create_impedance (create_impedance
          (create_impedance net t'.hv_bus t'.mv_bus 0 (1/100) 100) t'.mv_bus t'.lv_bus
          0 (1/100) 100) t'.hv_bus t'.lv_bus 0 (1/100) 100).trafo3w, r.idx = j :=
        fun j hj => hmono.2.2.2 j (h j (List.mem_cons_of_mem _ hj))
      obtain ⟨h1, h2⟩ := ih _ hrest
      exact ⟨h1, presMono_trans hmono h2⟩

/-- Presence of each selected index in the table its key names. -/
def PresFor (net : Net) (key : String) (idxs : List Nat) : Prop :=
  (key = "line" → ∀ i ∈ idxs, ∃ r ∈ net.line, r.idx = i) ∧
  (key = "impedance" → ∀ i ∈ idxs, ∃ r ∈ net.impedance, r.idx = i) ∧
  (key = "trafo" → ∀ i ∈ idxs, ∃ r ∈ net.trafo, r.idx = i) ∧
  (key = "trafo3w" → ∀ i ∈ idxs, ∃ r ∈ net.trafo3w, r.idx = i)

theorem PresFor.mono {net net' : Net} {key : String} {idxs : List Nat}
    (h : PresFor net key idxs) (hm : PresMono net net') : PresFor net' key idxs :=
  ⟨fun hk i hi => hm.1 i (h.1 hk i hi), fun hk i hi => hm.2.1 i (h.2.1 hk i hi),
   fun hk i hi => hm.2.2.1 i (h.2.2.1 hk i hi),
   fun hk i hi => hm.2.2.2 i (h.2.2.2 hk i hi)⟩

theorem impMutateKey_ok (net : Net) (key : String) (idxs : List Nat)
    (hkey : key = "line" ∨ key = "xward" ∨ key = "impedance" ∨ key = "trafo" ∨
      key = "trafo3w")
    (hpres : PresFor net key idxs) :
    (impMutateKey net key idxs).2 = none ∧ PresMono net (impMutateKey net key idxs).1 := by
  obtain ⟨p1, p2, p3, p4⟩ := hpres
  have hsm := fun key' => presMono_setInServiceFalse net key' idxs
  rcases hkey with hk | hk | hk | hk | hk <;> subst hk <;>
    unfold impMutateKey <;> dsimp only
  · rw [if_neg (by decide : ¬ ("line" : String) = "vsc"),
      if_neg (by decide : ¬ ("line" : String) = "line_dc"),
      if_neg (by decide : ¬ ("line" : String) = "xward"),
      if_neg (by decide : ¬ ("line" : String) = "trafo"),
      if_neg (by decide : ¬ ("line" : String) = "trafo3w"), if_pos rfl]
    have hpres' : ∀ i ∈ idxs, ∃ r ∈ (setInServiceFalse net "line" idxs).line, r.idx = i :=
      fun i hi => (hsm "line").1 i (p1 rfl i hi)
    obtain ⟨h1, h2⟩ := lineSwitchLoop_ok idxs _ hpres'
    exact ⟨h1, presMono_trans (hsm "line") h2⟩
  · rw [if_neg (by decide : ¬ ("xward" : String) = "vsc"),
      if_neg (by decide : ¬ ("xward" : String) = "line_dc"), if_pos rfl]
    exact ⟨rfl, presMono_trans (hsm "xward") (presMono_replace_xward _ idxs)⟩
  · rw [if_neg (by decide : ¬ ("impedance" : String) = "vsc"),
      if_neg (by decide : ¬ ("impedance" : String) = "line_dc"),
      if_neg (by decide : ¬ ("impedance" : String) = "xward"),
      if_neg (by decide : ¬ ("impedance" : String) = "trafo"),
      if_neg (by decide : ¬ ("impedance" : String) = "trafo3w"),
      if_neg (by decide : ¬ ("impedance" : String) = "line"), if_pos rfl]
    have hpres' : ∀ i ∈ idxs,
        ∃ r ∈ (setInServiceFalse net "impedance" idxs).impedance, r.idx = i :=
      fun i hi => (hsm "impedance").2.1 i (p2 rfl i hi)
    obtain ⟨h1, h2⟩ := impedanceSwitchLoop_ok idxs _ hpres'
    exact ⟨h1, presMono_trans (hsm "impedance") h2⟩
  · rw [if_neg (by decide : ¬ ("trafo" : String) = "vsc"),
      if_neg (by decide : ¬ ("trafo" : String) = "line_dc"),
      if_neg (by decide : ¬ ("trafo" : String) = "xward"), if_pos rfl]
    have hpres' : ∀ i ∈ idxs, ∃ r ∈ (setInServiceFalse net "trafo" idxs).trafo, r.idx = i :=
      fun i hi => (hsm "trafo").2.2.1 i (p3 rfl i hi)
    obtain ⟨h1, h2⟩ := trafoSubstLoop_ok idxs _ hpres'
    exact ⟨h1, presMono_trans (hsm "trafo") h2⟩
  · rw [if_neg (by decide : ¬ ("trafo3w" : String) = "vsc"),
      if_neg (by decide : ¬ ("trafo3w" : String) = "line_dc"),
      if_neg (by decide : ¬ ("trafo3w" : String) = "xward"),
      if_neg (by decide : ¬ ("trafo3w" : String) = "trafo"), if_pos rfl]
    have hpres' : ∀ i ∈ idxs,
        ∃ r ∈ (setInServiceFalse net "trafo3w" idxs).trafo3w, r.idx = i :=
      fun i hi => (hsm "trafo3w").2.2.2 i (p4 rfl i hi)
    obtain ⟨h1, h2⟩ := trafo3wSubstLoop_ok idxs _ hpres'
    exact ⟨h1, presMono_trans (hsm "trafo3w") h2⟩

theorem impMutateAll_ok (d : List (String × List Nat)) (net : Net)
    (H : ∀ kv ∈ d, (kv.1 = "line" ∨ kv.1 = "xward" ∨ kv.1 = "impedance" ∨
      kv.1 = "trafo" ∨ kv.1 = "trafo3w") ∧ PresFor net kv.1 kv.2) :
    (impMutateAll net d).2 = none := by
  induction d generalizing net with
  | nil => rfl
  | cons kv rest ih =>
    obtain ⟨hallow, hpres⟩ := H kv (List.mem_cons_self _ _)
    obtain ⟨hok, hmono⟩ := impMutateKey_ok net kv.1 kv.2 hallow hpres
    unfold impMutateAll
    split
    · next n' heq =>
      have hmono' : PresMono net n' := by
        rw [heq] at hmono
        exact hmono
      apply ih n'
      intro kv' hkv'
      obtain ⟨ha, hp⟩ := H kv' (List.mem_cons_of_mem _ hkv')
      exact ⟨ha, hp.mono hmono'⟩
    · next n' e heq =>
      rw [heq] at hok
      cases hok

/-- Every index selected by the line filter belongs to a line row. -/
theorem impLineFilter_presence (net : Net) (a b c d : Rat) :
    ∀ i ∈ impLineFilter net a b c d, ∃ r ∈ net.line, r.idx = i := by
  intro i hi
  unfold impLineFilter at hi
  obtain ⟨r, hr, hri⟩ := List.mem_map.mp hi
  exact ⟨r, (List.mem_filter.mp hr).1, hri⟩

/-- Every index selected by the 2-winding transformer filter belongs to a
trafo row. -/
theorem impTrafoFilter_presence (net : Net) (a b : Rat) :
    ∀ i ∈ impTrafoFilter net a b, ∃ r ∈ net.trafo, r.idx = i := by
  intro i hi
  unfold impTrafoFilter at hi
  obtain ⟨r, hr, hri⟩ := List.mem_map.mp hi
  exact ⟨r, (List.mem_filter.mp hr).1, hri⟩

/-- Every index selected by the 3-winding transformer filter belongs to a
trafo3w row. -/
theorem impTrafo3wFilter_presence (net : Net) (a b : Rat) :
    ∀ i ∈ impTrafo3wFilter net a b, ∃ r ∈ net.trafo3w, r.idx = i := by
  intro i hi
  unfold impTrafo3wFilter at hi
  obtain ⟨r, hr, hri⟩ := List.mem_map.mp hi
  exact ⟨r, (List.mem_filter.mp hr).1, hri⟩

/-- A successful impedance-filter step extends its accumulator by at most
the row's own index. -/
theorem impImpStep_cases (net : Net) (a b c d : Rat) (acc : List Nat)
    (r : ImpedanceRow) (out : List Nat)
    (h : impImpStep net a b c d acc r = .ok out) :
    out = acc ∨ out = acc ++ [r.idx] := by
  unfold impImpStep at h
  cases h1 : busVn net r.from_bus with
  | error e => rw [h1] at h; simp [Bind.bind, Except.bind] at h
  | ok vf =>
    cases h2 : busVn net r.to_bus with
    | error e => rw [h1, h2] at h; simp [Bind.bind, Except.bind] at h
    | ok vt =>
      rw [h1, h2] at h
      simp only [Bind.bind, Except.bind, pure, Except.pure] at h
      injection h with h
      rw [← h]
      split
      · right; rfl
      · left; rfl

/-- Every index produced by the series-impedance filter belongs to an
impedance row. -/
theorem impImpedanceFilter_presence (net : Net) (a b c d : Rat) (l : List Nat)
    (h : impImpedanceFilter net a b c d = .ok l) :
    ∀ i ∈ l, ∃ r ∈ net.impedance, r.idx = i := by
  unfold impImpedanceFilter at h
  suffices aux : ∀ (t : List ImpedanceRow) (acc out : List Nat),
      t.foldlM (impImpStep net a b c d) acc = .ok out →
      ∀ i ∈ out, i ∈ acc ∨ ∃ r ∈ t, r.idx = i by
    intro i hi
    rcases aux net.impedance [] l h i hi with h0 | h0
    · exact absurd h0 (List.not_mem_nil i)
    · exact h0
  intro t
  induction t with
  | nil =>
    intro acc out h0 i hi
    simp only [List.foldlM_nil] at h0
    injection h0 with h0
    subst h0
    exact Or.inl hi
  | cons r rest ih =>
    intro acc out h0 i hi
    rw [List.foldlM_cons] at h0
    cases hstep : impImpStep net a b c d acc r with
    | error e =>
      rw [hstep] at h0
      simp [Bind.bind, Except.bind] at h0
    | ok acc' =>
      rw [hstep] at h0
      simp only [Bind.bind, Except.bind] at h0
      rcases ih acc' out h0 i hi with hacc' | ⟨r', hr', hri⟩
      · rcases impImpStep_cases net a b c d acc r acc' hstep with he | he
        · subst he
          exact Or.inl hacc'
        · subst he
          rcases List.mem_append.mp hacc' with hm | hm
          · exact Or.inl hm
          · right
            exact ⟨r, List.mem_cons_self _ _, (List.mem_singleton.mp hm).symm⟩
      · exact Or.inr ⟨r', List.mem_cons_of_mem _ hr', hri⟩

/-- Under empty `vsc` and `line_dc` tables, every entry of the detection
dictionary names one of the five substitutable kinds and selects only
present rows. -/
theorem impDetect_entries (net : Net) (a b c d : Rat) (l : List (String × List Nat))
    (hdet : impDetect net a b c d = .ok l)
    (hvsc : net.vsc = []) (hldc : net.line_dc = []) :
    ∀ kv ∈ l, (kv.1 = "line" ∨ kv.1 = "xward" ∨ kv.1 = "impedance" ∨
      kv.1 = "trafo" ∨ kv.1 = "trafo3w") ∧ PresFor net kv.1 kv.2 := by
  unfold impDetect at hdet
  cases hfil : impImpedanceFilter net a b c d with
  | error e => rw [hfil] at hdet; cases hdet
  | ok impedanceIdx =>
    rw [hfil] at hdet
    dsimp only at hdet
    have hv : impVscFilter net a b = [] := by
      unfold impVscFilter
      rw [hvsc]
      rfl
    have hl : impLineDcFilter net a = [] := by
      unfold impLineDcFilter
      rw [hldc]
      rfl
    rw [hv, hl] at hdet
    simp only [ne_eq, not_true_eq_false, if_false, List.append_nil] at hdet
    injection hdet with hdet
    subst hdet
    intro kv hkv
    simp only [List.mem_append] at hkv
    rcases hkv with ((((h | h) | h) | h) | h)
    · rw [mem_condBlock h]
      dsimp only
      exact ⟨Or.inl rfl, fun _ => impLineFilter_presence net a b c d,
        fun hx => absurd hx (by decide), fun hx => absurd hx (by decide),
        fun hx => absurd hx (by decide)⟩
    · rw [mem_condBlock h]
      dsimp only
      exact ⟨Or.inr (Or.inl rfl), fun hx => absurd hx (by decide),
        fun hx => absurd hx (by decide), fun hx => absurd hx (by decide),
        fun hx => absurd hx (by decide)⟩
    · rw [mem_condBlock h]
      dsimp only
      exact ⟨Or.inr (Or.inr (Or.inl rfl)), fun hx => absurd hx (by decide),
        fun _ => impImpedanceFilter_presence net a b c d impedanceIdx hfil,
        fun hx => absurd hx (by decide), fun hx => absurd hx (by decide)⟩
    · rw [mem_condBlock h]
      dsimp only
      exact ⟨Or.inr (Or.inr (Or.inr (Or.inl rfl))), fun hx => absurd hx (by decide),
        fun hx => absurd hx (by decide), fun _ => impTrafoFilter_presence net b d,
        fun hx => absurd hx (by decide)⟩
    · rw [mem_condBlock h]
      dsimp only
      exact ⟨Or.inr (Or.inr (Or.inr (Or.inr rfl))), fun hx => absurd hx (by decide),
        fun hx => absurd hx (by decide), fun hx => absurd hx (by decide),
        fun _ => impTrafo3wFilter_presence net b d⟩

/-- Under a stateless solver that raises only expected non-convergence
exceptions, and with no converter or DC-line elements in the model, the
impedance probe hands the network back unchanged on every path. -/
theorem implausible_preserves (g : Net → SolveOutcome) (Hg : ExpectedOnly g)
    (net : Net) (hvsc : net.vsc = []) (hldc : net.line_dc = [])
    (a b c d : Rat) (k : Nat) :
    (implausible_impedance_values net a b c d (fun _ => g) k).net = net := by
  unfold implausible_impedance_values
  split
  · rfl
  · next l hdet =>
    have hentries := impDetect_entries net a b c d l hdet hvsc hldc
    unfold impProbePhase
    dsimp only
    split
    · split
      · exact impRestoreTables_eq _ _ (offProbeEq_refl _)
      · split
        · split
          · next netM e heqM =>
            exfalso
            have := impMutateAll_ok l net hentries
            rw [heqM] at this
            cases this
          · next netM heqM =>
            have hM : OffProbeEq netM net := by
              have := offProbe_impMutateAll l net
              rw [heqM] at this
              exact this
            split
            · exact impRestoreTables_eq _ _ hM
            · split
              · exact impRestoreTables_eq _ _ hM
              · next e1 heq1 hexp1 =>
                exact absurd (Hg.not_unexpected heq1) hexp1
        · exact impRestoreTables_eq _ _ (offProbeEq_refl _)
    · rfl

/-! ### C9: the orchestrator loop under stable checks -/

/-- If every catalog entry hands back the network unchanged (on invariant
networks) and produces a counter-independent result, the loop leaves the
network unchanged and its findings and errors do not depend on the starting
counter. -/
theorem diagLoop_stable (L : List (String × DiagCheckFun)) (Inv : Net → Prop)
    (H : ∀ nf ∈ L, ∀ n, Inv n → (∀ k, ((nf.2) n k).net = n) ∧
      (∀ k k', ((nf.2) n k).result = ((nf.2) n k').result)) :
    ∀ net, Inv net → ∀ k k',
      (diagLoop L net k).1 = net ∧
      (diagLoop L net k).2.2 = (diagLoop L net k').2.2 := by
  induction L with
  | nil => exact fun net hInv k k' => ⟨rfl, rfl⟩
  | cons c rest ih =>
    intro net hInv k k'
    obtain ⟨name, f⟩ := c
    have hc := H (name, f) (List.mem_cons_self _ _) net hInv
    have ihs := ih (fun nf hnf => H nf (List.mem_cons_of_mem _ hnf))
    have hnet_k : (f net k).net = net := hc.1 k
    have hnet_k' : (f net k').net = net := hc.1 k'
    have hres : (f net k).result = (f net k').result := hc.2 k k'
    constructor
    · have h1 := (ihs net hInv (f net k).calls (f net k).calls).1
      cases hr : (f net k).result with
      | ok p => cases p <;> simp [diagLoop, hr, hnet_k, h1]
      | error e => simp [diagLoop, hr, hnet_k, h1]
    · have h2 := (ihs net hInv (f net k).calls (f net k').calls).2
      have hrs := congrArg Prod.fst h2
      have hes := congrArg Prod.snd h2
      cases hr' : (f net k').result with
      | ok p =>
        have hr : (f net k).result = .ok p := hres.trans hr'
        cases p <;> simp [diagLoop, hr, hr', hnet_k, hnet_k', hrs, hes]
      | error e =>
        have hr : (f net k).result = .error e := hres.trans hr'
        simp [diagLoop, hr, hr', hnet_k, hnet_k', hrs, hes]

/-- Every entry of the fixed catalog is stable in the sense of
`diagLoop_stable`, on models without converter or DC-line elements, under a
stateless solver that raises only expected non-convergence exceptions. -/
theorem diag_functions_stable (cfg : DiagConfig) (g : Net → SolveOutcome)
    (Hg : ExpectedOnly g) :
    ∀ nf ∈ diag_functions cfg (fun _ => g), ∀ n, (n.vsc = [] ∧ n.line_dc = []) →
      (∀ k, ((nf.2) n k).net = n) ∧
      (∀ k k', ((nf.2) n k).result = ((nf.2) n k').result) := by
  intro nf hnf n hInv
  simp only [diag_functions, List.mem_cons, List.not_mem_nil, or_false] at hnf
  rcases hnf with h | h | h | h | h | h | h | h | h | h | h | h | h | h <;> subst h
  · exact ⟨fun k => rfl, fun k k' => rfl⟩
  · exact ⟨fun k => rfl, fun k k' => rfl⟩
  · exact ⟨fun k => rfl, fun k k' => rfl⟩
  · exact ⟨fun k => implausible_preserves g Hg n hInv.1 hInv.2 _ _ _ _ k,
      fun k k' => congrArg (Except.map _)
        (implausible_shift g n cfg.min_r_ohm cfg.min_x_ohm cfg.max_r_ohm
          cfg.max_x_ohm k k').2⟩
  · exact ⟨fun k => rfl, fun k k' => rfl⟩
  · exact ⟨fun k => rfl, fun k k' => rfl⟩
  · exact ⟨fun k => overload_preserves g Hg n cfg.overload_scaling_factor k,
      fun k k' => congrArg (Except.map _)
        (overload_shift g n cfg.overload_scaling_factor k k').2⟩
  · exact ⟨fun k => wsc_preserves g Hg n k,
      fun k k' => congrArg (Except.map _) (wsc_shift g n k k').2⟩
  · exact ⟨fun k => rfl, fun k k' => rfl⟩
  · exact ⟨fun k => rfl, fun k k' => rfl⟩
  · exact ⟨fun k => rfl, fun k k' => rfl⟩
  · exact ⟨fun k => rfl, fun k k' => rfl⟩
  · exact ⟨fun k => numba_preserves n cfg.numba_tolerance (fun _ => g) k,
      fun k k' => congrArg (Except.map _)
        (numba_shift g n cfg.numba_tolerance k k').2⟩
  · exact ⟨fun k => rfl, fun k k' => rfl⟩

/-- An injected solver double that is deterministic (it depends only on the
network): it raises the expected non-convergence exception while all load
scaling is 1 and a `RuntimeError` otherwise. -/
def runC9 : Solver := fun _ n =>
  if n.load.all (fun l => l.scaling == 1) then .exn .loadflowNotConverged
  else .exn (.otherError "boom")

/-- C9 counterexample: under a deterministic injected solver, running the
full pipeline twice in succession yields different error mappings — the
first run's overload probe propagates a `RuntimeError` from its perturbed
re-solve and leaves the load scaling perturbed, so the second run's overload
probe takes a different path and records no error. -/
theorem diagnostic_not_idempotent :
    (∀ i j n, runC9 i n = runC9 j n) ∧
    (diagnosticCore (diagnosticCore netOv {} runC9 0).1 {} runC9
        (diagnosticCore netOv {} runC9 0).2.1).2.2.2 ≠
      (diagnosticCore netOv {} runC9 0).2.2.2 := by
  refine ⟨fun i j n => rfl, ?_⟩
  with_unfolding_all decide

/-- C9 (amended): for a deterministic injected solver (one that factors
through the model) that only converges or raises expected non-convergence
exceptions, and a model without converter or DC-line elements (whose
implausibility substitution would itself raise), the pipeline hands the
model back unchanged, and running it again — from any solver-call counter —
yields identical findings and identical errors. -/
theorem diagnostic_idempotent_for_expected_solver (g : Net → SolveOutcome)
    (Hg : ExpectedOnly g) (net : Net) (hvsc : net.vsc = []) (hldc : net.line_dc = [])
    (cfg : DiagConfig) (k k' : Nat) :
    (diagnosticCore net cfg (fun _ => g) k).1 = net ∧
    (diagnosticCore ((diagnosticCore net cfg (fun _ => g) k).1) cfg
        (fun _ => g) k').2.2 =
      (diagnosticCore net cfg (fun _ => g) k).2.2 := by
  have hst := diagLoop_stable (diag_functions cfg (fun _ => g))
    (fun n => n.vsc = [] ∧ n.line_dc = [])
    (diag_functions_stable cfg g Hg) net ⟨hvsc, hldc⟩
  have h1 : (diagnosticCore net cfg (fun _ => g) k).1 = net := (hst k k).1
  refine ⟨h1, ?_⟩
  rw [h1]
  unfold diagnosticCore
  exact (hst k' k).2

/-- C9 witness: the amended idempotence theorem applied to a concrete
network under the always-raising (expected) solver double, restarting the
second run at solver-call counter 7. -/
theorem diagnostic_idempotent_for_expected_solver_witness :
    (diagnosticCore netOv {} (fun _ => fun _ => SolveOutcome.exn .loadflowNotConverged) 0).1
        = netOv ∧
    (diagnosticCore ((diagnosticCore netOv {}
        (fun _ => fun _ => SolveOutcome.exn .loadflowNotConverged) 0).1) {}
        (fun _ => fun _ => SolveOutcome.exn .loadflowNotConverged) 7).2.2 =
      (diagnosticCore netOv {}
        (fun _ => fun _ => SolveOutcome.exn .loadflowNotConverged) 0).2.2 :=
  diagnostic_idempotent_for_expected_solver
    (fun _ => SolveOutcome.exn .loadflowNotConverged)
    (fun _ => Or.inr ⟨.loadflowNotConverged, rfl, rfl⟩) netOv rfl rfl {} 0 7

end PPDiag
